import Mathlib

/-!
# Verification of the NES emulator core (CPU, PPU, cartridge)

A shallow embedding of the emulator's CPU (`cpu.py`), PPU (`ppu.py`) and
cartridge (`rom.py`) in Lean 4, together with theorems that settle the
specification claims about instruction timing, the memory bus, the PPU
register protocol and sprite rendering.

Modelling conventions:
* Byte-indexed memory banks (`array('B', ...)` in the source) are total
  functions `Nat → Nat`; a direct Python index that can be out of range
  is modelled by an explicit bounds check that returns `none`
  (an `IndexError` crash in the source).
* Fallible operations (Python exceptions: the `LookupError` of the PPU
  register file, `IndexError` on raw array indexing) return `Option`.
* Python arbitrary-precision integer arithmetic that can go negative is
  carried out on `Int`, with Python's `%` mapped to `Int.emod` and
  bitwise masks on negative values rewritten through `emod` (for any
  integer `t` and width `w`, the low `w` bits of `t` in two's complement
  equal the bits of `t.emod 2^w`, which is non-negative).
-/

/-- Pointwise update of a byte bank: `f[i] = v`. -/
def updFn (f : Nat → Nat) (i v : Nat) : Nat → Nat :=
  fun j => if j = i then v else f j

/-- Pointwise update of the two-dimensional framebuffer: `f[x, y] = v`. -/
def updFn2 (f : Nat → Nat → Nat) (x y v : Nat) : Nat → Nat → Nat :=
  fun a b => if a = x ∧ b = y then v else f a b

/-! ## Cartridge (`rom.py`, mapper 0) -/

/-- Cartridge state.  `chr_rom`/`prg_rom` are the read-only banks loaded by
the external iNES reader, `prg_ram` the 8 KiB work RAM, `prg_rom_size` the
number of 16 KiB PRG banks from the header. -/
structure ROM where
  chr_rom : Nat → Nat
  prg_rom : Nat → Nat
  prg_ram : Nat → Nat
  prg_rom_size : Nat
  vertical_mirroring : Bool

/-- `ROM.read_mapper0` (bound as `read_cartridge`).  The source raises
`LookupError` for `0x2000 ≤ address < 0x6000`; both bus call sites pass
either `address < 0x2000` (PPU pattern fetch) or `address ≥ 0x6000`
(CPU bus), so that branch is modelled by an inert `0`. -/
def ROM.read_cartridge (rom : ROM) (address : Nat) : Nat :=
  if address < 0x2000 then rom.chr_rom address
  else if 0x6000 ≤ address ∧ address < 0x8000 then rom.prg_ram (address % 8192)
  else if 0x8000 ≤ address then
    if rom.prg_rom_size > 1 then rom.prg_rom (address - 0x8000)
    else rom.prg_rom ((address - 0x8000) % 16384)
  else 0

/-- `ROM.write_mapper0` (bound as `write_cartridge`): only PRG-RAM at
`address ≥ 0x6000` is writable; every other write is dropped. -/
def ROM.write_cartridge (rom : ROM) (address value : Nat) : ROM :=
  if 0x6000 ≤ address then
    { rom with prg_ram := updFn rom.prg_ram (address % 8192) value }
  else rom

/-! ## PPU (`ppu.py`) -/

/-- The fixed 64-entry NES colour table. -/
def NES_PALETTE : List Nat :=
  [0x7C7C7C, 0x0000FC, 0x0000BC, 0x4428BC, 0x940084, 0xA80020,
   0xA81000, 0x881400, 0x503000, 0x007800, 0x006800, 0x005800,
   0x004058, 0x000000, 0x000000, 0x000000, 0xBCBCBC, 0x0078F8,
   0x0058F8, 0x6844FC, 0xD800CC, 0xE40058, 0xF83800, 0xE45C10,
   0xAC7C00, 0x00B800, 0x00A800, 0x00A844, 0x008888, 0x000000,
   0x000000, 0x000000, 0xF8F8F8, 0x3CBCFC, 0x6888FC, 0x9878F8,
   0xF878F8, 0xF85898, 0xF87858, 0xFCA044, 0xF8B800, 0xB8F818,
   0x58D854, 0x58F898, 0x00E8D8, 0x787878, 0x000000, 0x000000,
   0xFCFCFC, 0xA4E4FC, 0xB8B8F8, 0xD8B8F8, 0xF8B8F8, 0xF8A4C0,
   0xF0D0B0, 0xFCE0A8, 0xF8D878, 0xD8F878, 0xB8F8B8, 0xB8F8D8,
   0x00FCFC, 0xF8D8F8, 0x000000, 0x000000]

/-- Total lookup into `NES_PALETTE` (palette indices come from 5-bit
palette RAM entries written by games; indices past 63 default to 0). -/
def nesPalette (i : Nat) : Nat := NES_PALETTE.getD i 0

/-- PPU state, field for field the attributes set in `PPU.__init__`.
The 256-byte OAM `spr`, the 2 KiB `nametables` and the 32-byte `palette`
are byte banks; `display_buffer` is the 256×240 framebuffer indexed
`[x, y]`. -/
structure PPU where
  spr : Nat → Nat
  nametables : Nat → Nat
  palette : Nat → Nat
  addr : Nat
  addr_write_latch : Bool
  status : Nat
  spr_address : Nat
  nametable_address : Nat
  address_increment : Nat
  spr_pattern_table_address : Nat
  background_pattern_table_address : Nat
  generate_nmi : Bool
  show_background : Bool
  show_sprites : Bool
  left_8_sprite_show : Bool
  left_8_background_show : Bool
  scroll_x : Nat
  scroll_y : Nat
  scroll_latch : Bool
  buffer2007 : Nat
  scanline : Nat
  cycle : Nat
  display_buffer : Nat → Nat → Nat

/-- `PPU.read_memory`.  The address is first reduced mod `0x4000`, so the
source's final `LookupError` branch is unreachable and the three live
regions (pattern tables, mirrored nametables, mirrored palette) remain. -/
def PPU.read_memory (rom : ROM) (p : PPU) (address : Nat) : Nat :=
  let address := address % 0x4000
  if address < 0x2000 then rom.read_cartridge address
  else if address < 0x3F00 then
    let address := (address - 0x2000) % 0x1000
    let address :=
      if rom.vertical_mirroring then address % 0x0800
      else if 0x400 ≤ address ∧ address < 0xC00 then address - 0x400
      else if 0xC00 ≤ address then address - 0x800
      else address
    p.nametables address
  else
    let address := (address - 0x3F00) % 0x20
    let address :=
      if address > 0x0F ∧ address % 0x04 = 0 then address - 0x10 else address
    p.palette address

/-- `PPU.write_memory`.  For `address < 0x2000` the source forwards to
`rom.write_cartridge`, which drops writes below `0x6000`, so the
cartridge is unchanged and only the PPU state can change. -/
def PPU.write_memory (rom : ROM) (p : PPU) (address value : Nat) : PPU :=
  let address := address % 0x4000
  if address < 0x2000 then p
  else if address < 0x3F00 then
    let address := (address - 0x2000) % 0x1000
    let address :=
      if rom.vertical_mirroring then address % 0x0800
      else if 0x400 ≤ address ∧ address < 0xC00 then address - 0x400
      else if 0xC00 ≤ address then address - 0x800
      else address
    { p with nametables := updFn p.nametables address value }
  else
    let address := (address - 0x3F00) % 0x20
    let address :=
      if address > 0x0F ∧ address % 0x04 = 0 then address - 0x10 else address
    { p with palette := updFn p.palette address value }

/-- `PPU.read_register`.  Returns the byte read and the successor state;
`none` models the `LookupError` raised for a register outside
`{0x2002, 0x2004, 0x2007}` and the `IndexError` of `spr[spr_address]`
when the OAM pointer has run past the 256-byte OAM. -/
def PPU.read_register (rom : ROM) (p : PPU) (address : Nat) : Option (Nat × PPU) :=
  if address = 0x2002 then
    let p := { p with addr_write_latch := false, scroll_latch := false }
    some (p.status, { p with status := p.status &&& 0b01111111 })
  else if address = 0x2004 then
    if p.spr_address < 256 then some (p.spr p.spr_address, p) else none
  else if address = 0x2007 then
    if p.addr % 0x4000 < 0x3F00 then
      let value := p.buffer2007
      let p := { p with buffer2007 := p.read_memory rom p.addr }
      some (value, { p with addr := p.addr + p.address_increment })
    else
      let value := p.read_memory rom p.addr
      let p := { p with buffer2007 := p.read_memory rom (p.addr - 0x1000) }
      some (value, { p with addr := p.addr + p.address_increment })
  else none

/-- `PPU.write_register`.  `none` models the `LookupError` for a register
outside the seven writable ones and the `IndexError` of
`spr[spr_address] = value` with the OAM pointer out of range.  Note that
PPUADDR (`0x2006`) toggles `addr_write_latch` while PPUSCROLL (`0x2005`)
toggles the separate `scroll_latch`. -/
def PPU.write_register (rom : ROM) (p : PPU) (address value : Nat) : Option PPU :=
  if address = 0x2000 then
    some { p with
      nametable_address := 0x2000 + (value &&& 0b00000011) * 0x400,
      address_increment := if value &&& 0b00000100 ≠ 0 then 32 else 1,
      spr_pattern_table_address := ((value &&& 0b00001000) >>> 3) * 0x1000,
      background_pattern_table_address := ((value &&& 0b00010000) >>> 4) * 0x1000,
      generate_nmi := value &&& 0b10000000 != 0 }
  else if address = 0x2001 then
    some { p with
      show_background := value &&& 0b00001000 != 0,
      show_sprites := value &&& 0b00010000 != 0,
      left_8_background_show := value &&& 0b00000010 != 0,
      left_8_sprite_show := value &&& 0b00000100 != 0 }
  else if address = 0x2003 then
    some { p with spr_address := value }
  else if address = 0x2004 then
    if p.spr_address < 256 then
      some { p with spr := updFn p.spr p.spr_address value,
                    spr_address := p.spr_address + 1 }
    else none
  else if address = 0x2005 then
    if ¬ p.scroll_latch then
      some { p with scroll_x := value, scroll_latch := ¬ p.scroll_latch }
    else
      some { p with scroll_y := value, scroll_latch := ¬ p.scroll_latch }
  else if address = 0x2006 then
    if ¬ p.addr_write_latch then
      some { p with addr := (p.addr &&& 0x00FF) ||| ((value &&& 0xFF) <<< 8),
                    addr_write_latch := ¬ p.addr_write_latch }
    else
      some { p with addr := (p.addr &&& 0xFF00) ||| (value &&& 0xFF),
                    addr_write_latch := ¬ p.addr_write_latch }
  else if address = 0x2007 then
    let p := p.write_memory rom p.addr value
    some { p with addr := p.addr + p.address_increment }
  else none

/-- `PPU.draw_background`.  The screen coordinates subtract the scroll
registers before wrapping, which can go negative in the source, hence the
`Int.emod`. -/
def PPU.draw_background (rom : ROM) (p : PPU) : PPU :=
  let attribute_table_address := p.nametable_address + 960
  (List.range 30).foldl (fun p y =>
    (List.range 32).foldl (fun p x =>
      let tile_address := p.nametable_address + y * 32 + x
      let nametable_entry := p.read_memory rom tile_address
      let attrx := x / 4
      let attry := y / 4
      let attribute_address := attribute_table_address + attry * 8 + attrx
      let attribute_entry := p.read_memory rom attribute_address
      let block := (y &&& 0x02) ||| ((x &&& 0x02) >>> 1)
      let attribute_bits :=
        if block = 0 then (attribute_entry &&& 0b00000011) <<< 2
        else if block = 1 then attribute_entry &&& 0b00001100
        else if block = 2 then (attribute_entry &&& 0b00110000) >>> 2
        else if block = 3 then (attribute_entry &&& 0b11000000) >>> 4
        else 0
      (List.range 8).foldl (fun p fine_y =>
        let low_order := p.read_memory rom
          (p.background_pattern_table_address + nametable_entry * 16 + fine_y)
        let high_order := p.read_memory rom
          (p.background_pattern_table_address + nametable_entry * 16 + 8 + fine_y)
        (List.range 8).foldl (fun p fine_x =>
          let pixel := ((low_order >>> (7 - fine_x)) &&& 1) |||
            (((high_order >>> (7 - fine_x)) &&& 1) <<< 1) ||| attribute_bits
          let x_screen_loc := (((x * 8 + fine_x : Int) - p.scroll_x).emod 256).toNat
          let y_screen_loc := (((y * 8 + fine_y : Int) - p.scroll_y).emod 240).toNat
          let color := if pixel &&& 3 = 0 then p.palette 0 else p.palette pixel
          { p with display_buffer :=
              updFn2 p.display_buffer x_screen_loc y_screen_loc (nesPalette color) })
          p) p) p) p

/-- The body of the per-pixel sprite loop of `PPU.draw_sprites`, for OAM
entry `i`, sprite-local data `background_sprite`/`x_position`/`y_position`
read at entry start, and screen pixel `(x, y)`.  The two `continue`
statements of the source are the early `p` returns. -/
def PPU.sprite_pixel (rom : ROM) (background_transparent : Bool) (i : Nat)
    (background_sprite : Bool) (x_position y_position x y : Nat) (p : PPU) : PPU :=
  let flip_y := (p.spr (i + 2) >>> 7) &&& 1 != 0
  let sprite_line := y - y_position
  let sprite_line := if flip_y then 7 - sprite_line else sprite_line
  let index := p.spr (i + 1)
  let bit0s := p.read_memory rom (p.spr_pattern_table_address + index * 16 + sprite_line)
  let bit1s := p.read_memory rom (p.spr_pattern_table_address + index * 16 + sprite_line + 8)
  let bit3and2 := (p.spr (i + 2) &&& 3) <<< 2
  let flip_x := (p.spr (i + 2) >>> 6) &&& 1 != 0
  let x_loc := x - x_position
  let x_loc := if ¬ flip_x then 7 - x_loc else x_loc
  let bit1and0 := (((bit1s >>> x_loc) &&& 1) <<< 1) ||| ((bit0s >>> x_loc) &&& 1)
  if bit1and0 = 0 then p
  else
    let p :=
      if i = 0 ∧ ¬ background_transparent ∧
          (¬ (x < 8 ∧ (¬ p.left_8_sprite_show ∨ ¬ p.left_8_background_show)) ∧
            p.show_background ∧ p.show_sprites) then
        { p with status := p.status ||| 0b01000000 }
      else p
    if background_sprite ∧ ¬ background_transparent then p
    else
      let color := bit3and2 ||| bit1and0
      let color := p.read_memory rom (0x3F10 + color)
      { p with display_buffer := updFn2 p.display_buffer x y (nesPalette color) }

/-- One OAM entry of `PPU.draw_sprites`: the `y == 0xFF` skip, then the
8×8 pixel loops.  The `break` on reaching the right/bottom screen edge is
the `takeWhile` (the ranges are increasing, so breaking equals
truncating). -/
def PPU.draw_sprite_entry (rom : ROM) (background_transparent : Bool)
    (p : PPU) (i : Nat) : PPU :=
  let y_position := p.spr i
  if y_position = 0xFF then p
  else
    let background_sprite := (p.spr (i + 2) >>> 5) &&& 1 != 0
    let x_position := p.spr (i + 3)
    ((List.range' x_position 8).takeWhile (· < 256)).foldl (fun p x =>
      ((List.range' y_position 8).takeWhile (· < 240)).foldl (fun p y =>
        p.sprite_pixel rom background_transparent i background_sprite
          x_position y_position x y) p) p

/-- `PPU.draw_sprites`: OAM entries in descending index order
`252, 248, …, 0` (Python `range(252, -4, -4)`). -/
def PPU.draw_sprites (rom : ROM) (p : PPU) (background_transparent : Bool) : PPU :=
  ((List.range 64).map (fun k => 252 - 4 * k)).foldl
    (fun p i => p.draw_sprite_entry rom background_transparent i) p

/-- The whole-frame render performed at `(scanline, cycle) = (240, 256)`:
background first (if enabled), then sprites (if enabled) — the sprite
pass is always invoked with `background_transparent = false`. -/
def PPU.render_frame (rom : ROM) (p : PPU) : PPU :=
  let p := if p.show_background then p.draw_background rom else p
  if p.show_sprites then p.draw_sprites rom false else p

/-- The tail of `PPU.step` after the render point: the vblank set at
`(241, 1)`, the `status |= 0x1F` at `(261, 1)`, and the dot/scanline
counter advance. -/
def PPU.post_render (p : PPU) : PPU :=
  let p :=
    if p.scanline = 241 ∧ p.cycle = 1 then
      { p with status := p.status ||| 0b10000000 }
    else p
  let p :=
    if p.scanline = 261 ∧ p.cycle = 1 then
      { p with status := p.status ||| 0b00011111 }
    else p
  let p := { p with cycle := p.cycle + 1 }
  if p.cycle > 340 then
    let p := { p with cycle := 0, scanline := p.scanline + 1 }
    if p.scanline > 261 then { p with scanline := 0 } else p
  else p

/-- `PPU.step`: one PPU dot. -/
def PPU.step (rom : ROM) (p : PPU) : PPU :=
  PPU.post_render
    (if p.scanline = 240 ∧ p.cycle = 256 then p.render_frame rom else p)

/-! ## CPU (`cpu.py`) -/

/-- The 13 addressing modes (plus `DUMMY` for table padding). -/
inductive MemMode where
  | DUMMY | ABSOLUTE | ABSOLUTE_X | ABSOLUTE_Y | ACCUMULATOR | IMMEDIATE
  | IMPLIED | INDEXED_INDIRECT | INDIRECT | INDIRECT_INDEXED | RELATIVE
  | ZEROPAGE | ZEROPAGE_X | ZEROPAGE_Y
deriving DecidableEq

/-- All mnemonics appearing in the instruction table (official and
unofficial). -/
inductive InstructionType where
  | ADC | AHX | ALR | ANC | AND | ARR | ASL | AXS
  | BCC | BCS | BEQ | BIT | BMI | BNE | BPL | BRK
  | BVC | BVS | CLC | CLD | CLI | CLV | CMP | CPX
  | CPY | DCP | DEC | DEX | DEY | EOR | INC | INX
  | INY | ISC | JMP | JSR | KIL | LAS | LAX | LDA
  | LDX | LDY | LSR | NOP | ORA | PHA | PHP | PLA
  | PLP | RLA | ROL | ROR | RRA | RTI | RTS | SAX
  | SBC | SEC | SED | SEI | SHX | SHY | SLO | SRE
  | STA | STX | STY | TAS | TAX | TAY | TSX | TXA
  | TXS | TYA | XAA
deriving DecidableEq

/-- The method bound by a table entry (in the source each `Instruction`
stores a bound method of `CPU`; here a tag dispatched by `CPU.execute`). -/
inductive Handler where
  | ADC | AND | ASL | BCC | BCS | BEQ | BIT | BMI | BNE | BPL | BRK
  | BVC | BVS | CLC | CLD | CLI | CLV | CMP | CPX | CPY | DEC | DEX
  | DEY | EOR | INC | INX | INY | JMP | JSR | LDA | LDX | LDY | LSR
  | NOP | ORA | PHA | PHP | PLA | PLP | ROL | ROR | RTI | RTS | SBC
  | SEC | SED | SEI | STA | STX | STY | TAX | TAY | TSX | TXA | TXS
  | TYA | unimplemented
deriving DecidableEq

/-- One entry of the 256-entry instruction table. -/
structure Instruction where
  type : InstructionType
  method : Handler
  mode : MemMode
  length : Nat
  ticks : Nat
  page_ticks : Nat

/-- Controller 1 state. -/
structure Joypad where
  strobe : Bool := false
  read_count : Nat := 0
  a : Bool := false
  b : Bool := false
  select : Bool := false
  start : Bool := false
  up : Bool := false
  down : Bool := false
  left : Bool := false
  right : Bool := false

/-- CPU state, field for field the attributes set in `CPU.__init__`,
including the connected `ppu` and `rom`. -/
structure CPU where
  ppu : PPU
  rom : ROM
  ram : Nat → Nat
  A : Nat
  X : Nat
  Y : Nat
  SP : Nat
  PC : Nat
  C : Bool
  Z : Bool
  I : Bool
  D : Bool
  B : Bool
  V : Bool
  N : Bool
  jumped : Bool
  page_crossed : Bool
  cpu_ticks : Nat
  stall : Nat
  joypad1 : Joypad

/-- Direct index into the 2 KiB `ram` array; `none` is the `IndexError`
raised by Python on an index past the end of the array. -/
def CPU.ram_get (c : CPU) (i : Nat) : Option Nat :=
  if i < 2048 then some (c.ram i) else none

/-- Direct indexed store into the 2 KiB `ram` array, with the same
out-of-range behaviour as `CPU.ram_get`. -/
def CPU.ram_set (c : CPU) (i v : Nat) : Option CPU :=
  if i < 2048 then some { c with ram := updFn c.ram i v } else none

/-- The packed status byte, LSB to MSB: C, Z, I, D, B, constant 1, V, N. -/
def CPU.status (c : CPU) : Nat :=
  c.C.toNat ||| c.Z.toNat <<< 1 ||| c.I.toNat <<< 2 ||| c.D.toNat <<< 3 |||
  c.B.toNat <<< 4 ||| 1 <<< 5 ||| c.V.toNat <<< 6 ||| c.N.toNat <<< 7

/-- `CPU.set_status`: unpack a status byte into the flags; B is forced to
false. -/
def CPU.set_status (c : CPU) (temp : Nat) : CPU :=
  { c with
    C := temp &&& 0b00000001 != 0,
    Z := temp &&& 0b00000010 != 0,
    I := temp &&& 0b00000100 != 0,
    D := temp &&& 0b00001000 != 0,
    B := false,
    V := temp &&& 0b01000000 != 0,
    N := temp &&& 0b10000000 != 0 }

/-- `CPU.setZN` on a possibly negative intermediate (CMP-style
subtractions pass `A - src`).  Python computes
`bool(value & 0x80) or (value < 0)`; for any integer `t`, `t & 0x80`
equals `(t mod 256) & 0x80` on the non-negative remainder, since bits
0..7 are unchanged by adding multiples of 256. -/
def CPU.setZN (c : CPU) (value : Int) : CPU :=
  { c with
    Z := value == 0,
    N := (((value.emod 256).toNat &&& 0x80) != 0) || decide (value < 0) }

/-- Push writes at `0x100 | SP`, then `SP := (SP - 1) & 0xFF`
(`(SP + 255) % 256` on `Nat`, identical for every non-negative `SP`). -/
def CPU.stack_push (c : CPU) (value : Nat) : Option CPU :=
  (c.ram_set (0x100 ||| c.SP) value).map fun c =>
    { c with SP := (c.SP + 255) % 256 }

/-- Pop increments `SP` (mod 256) first, then reads `0x100 | SP`. -/
def CPU.stack_pop (c : CPU) : Option (Nat × CPU) :=
  let c := { c with SP := (c.SP + 1) % 256 }
  (c.ram_get (0x100 ||| c.SP)).map fun v => (v, c)

/-- Python `t & 0xFF00` on an arbitrary (possibly negative) integer:
bits 8..15 of the two's complement value, which equal the corresponding
bits of the non-negative remainder `t mod 0x10000`. -/
def int_and_FF00 (t : Int) : Nat := (t.emod 0x10000).toNat &&& 0xFF00

/-- The `different_pages` helper of `CPU.address_for_mode`. -/
def different_pages (address1 address2 : Int) : Bool :=
  int_and_FF00 address1 != int_and_FF00 address2

/-- `CPU.address_for_mode`.  Returns the effective address and the CPU
with `page_crossed` updated where the source assigns it (ABSOLUTE_X/Y and
INDIRECT_INDEXED only — in particular RELATIVE never sets it).  The
INDIRECT case indexes `ram` raw (no mirroring), so a pointer at or past
`0x800` is an `IndexError` (`none`).  The Python
`(PC + 2 + (data - 256)) & 0xFFFF` of the RELATIVE case masks a possibly
negative integer, i.e. takes `emod 0x10000`. -/
def CPU.address_for_mode (c : CPU) (data : Nat) (mode : MemMode) :
    Option (Nat × CPU) :=
  match mode with
  | .ABSOLUTE => some (data, c)
  | .ABSOLUTE_X =>
      let address := (data + c.X) &&& 0xFFFF
      some (address,
        { c with page_crossed := different_pages address ((address : Int) - c.X) })
  | .ABSOLUTE_Y =>
      let address := (data + c.Y) &&& 0xFFFF
      some (address,
        { c with page_crossed := different_pages address ((address : Int) - c.Y) })
  | .INDEXED_INDIRECT =>
      (c.ram_get ((data + c.X) &&& 0xFF)).bind fun ls =>
      (c.ram_get ((data + c.X + 1) &&& 0xFF)).map fun ms =>
      ((ms <<< 8) ||| ls, c)
  | .INDIRECT =>
      (c.ram_get data).bind fun ls =>
      (c.ram_get (data + 1)).bind fun ms0 =>
      (if data &&& 0xFF = 0xFF then c.ram_get (data &&& 0xFF00)
       else some ms0).map fun ms =>
      ((ms <<< 8) ||| ls, c)
  | .INDIRECT_INDEXED =>
      (c.ram_get (data &&& 0xFF)).bind fun ls =>
      (c.ram_get ((data + 1) &&& 0xFF)).map fun ms =>
      let address := (((ms <<< 8) ||| ls) + c.Y) &&& 0xFFFF
      (address,
        { c with page_crossed := different_pages address ((address : Int) - c.Y) })
  | .RELATIVE =>
      some ((if data < 0x80 then (c.PC + 2 + data) &&& 0xFFFF
             else (((c.PC : Int) + 2 + ((data : Int) - 256)).emod 0x10000).toNat), c)
  | .ZEROPAGE => some (data, c)
  | .ZEROPAGE_X => some ((data + c.X) &&& 0xFF, c)
  | .ZEROPAGE_Y => some ((data + c.Y) &&& 0xFF, c)
  | _ => some (0, c)

/-- `CPU.read_memory`: the CPU bus read.  IMMEDIATE short-circuits and
returns `location` (the operand itself).  The partition: internal RAM
mirrored mod `0x800` below `0x2000`; PPU register `(a % 8) | 0x2000` up
to `0x4000`; joypad 1 at `0x4016`; zero for other I/O below `0x6000`;
cartridge above. -/
def CPU.read_memory (c : CPU) (location : Nat) (mode : MemMode) :
    Option (Nat × CPU) :=
  if mode = MemMode.IMMEDIATE then some (location, c)
  else
    (c.address_for_mode location mode).bind fun (address, c) =>
    if address < 0x2000 then
      some (c.ram (address % 0x800), c)
    else if address < 0x4000 then
      (PPU.read_register c.rom c.ppu ((address % 8) ||| 0x2000)).map
        fun vp => (vp.1, { c with ppu := vp.2 })
    else if address = 0x4016 then
      if c.joypad1.strobe then some (c.joypad1.a.toNat, c)
      else
        let c := { c with joypad1 :=
          { c.joypad1 with read_count := c.joypad1.read_count + 1 } }
        let v :=
          match c.joypad1.read_count with
          | 1 => 0x40 ||| c.joypad1.a.toNat
          | 2 => 0x40 ||| c.joypad1.b.toNat
          | 3 => 0x40 ||| c.joypad1.select.toNat
          | 4 => 0x40 ||| c.joypad1.start.toNat
          | 5 => 0x40 ||| c.joypad1.up.toNat
          | 6 => 0x40 ||| c.joypad1.down.toNat
          | 7 => 0x40 ||| c.joypad1.left.toNat
          | 8 => 0x40 ||| c.joypad1.right.toNat
          | _ => 0x41
        some (v, c)
    else if address < 0x6000 then some (0, c)
    else some (c.rom.read_cartridge address, c)

/-- `CPU.write_memory`: the CPU bus write.  Note the PPU branch guard is
`address < 0x3FFF` (not `0x4000`), so a write at exactly `0x3FFF` falls
through to the unimplemented-I/O branch and is dropped.  `0x4014` is the
OAM DMA: 256 bus reads starting at `value * 0x100` copied into the PPU
OAM, then `stall := 512`. -/
def CPU.write_memory (c : CPU) (location : Nat) (mode : MemMode)
    (value : Nat) : Option CPU :=
  if mode = MemMode.IMMEDIATE then c.ram_set location value
  else
    (c.address_for_mode location mode).bind fun (address, c) =>
    if address < 0x2000 then
      some { c with ram := updFn c.ram (address % 0x800) value }
    else if address < 0x3FFF then
      (PPU.write_register c.rom c.ppu ((address % 8) ||| 0x2000) value).map
        fun pp => { c with ppu := pp }
    else if address = 0x4014 then
      ((List.range 256).foldlM (fun (c : CPU) i =>
          (c.read_memory (value * 0x100 + i) MemMode.ABSOLUTE).map fun vc =>
            { vc.2 with ppu :=
              { vc.2.ppu with spr := updFn vc.2.ppu.spr i vc.1 } }) c).map
        fun c => { c with stall := 512 }
    else if address = 0x4016 then
      let c :=
        if c.joypad1.strobe ∧ value &&& 1 = 0 then
          { c with joypad1 := { c.joypad1 with read_count := 0 } }
        else c
      some { c with joypad1 := { c.joypad1 with strobe := value &&& 1 != 0 } }
    else if address < 0x6000 then some c
    else some { c with rom := c.rom.write_cartridge address value }

/-- `CPU.ADC`: add with carry.  The Python overflow test
`~(A ^ src) & (A ^ result) & 0x80` is non-zero exactly when bit 7 of
`A ^ src` is clear and bit 7 of `A ^ result` is set. -/
def CPU.ADC (c : CPU) (instruction : Instruction) (data : Nat) : Option CPU :=
  (c.read_memory data instruction.mode).map fun (src, c) =>
    let signed_result := src + c.A + c.C.toNat
    let c := { c with
      V := decide ((c.A ^^^ src) &&& 0x80 = 0 ∧
                   (c.A ^^^ signed_result) &&& 0x80 ≠ 0),
      A := (c.A + src + c.C.toNat) % 256,
      C := decide (signed_result > 0xFF) }
    c.setZN (c.A : Int)

/-- `CPU.AND`. -/
def CPU.AND (c : CPU) (instruction : Instruction) (data : Nat) : Option CPU :=
  (c.read_memory data instruction.mode).map fun (src, c) =>
    let c := { c with A := c.A &&& src }
    c.setZN (c.A : Int)

/-- `CPU.ASL`: operand is A in ACCUMULATOR mode, memory otherwise. -/
def CPU.ASL (c : CPU) (instruction : Instruction) (data : Nat) : Option CPU :=
  (if instruction.mode = MemMode.ACCUMULATOR then some (c.A, c)
   else c.read_memory data instruction.mode).bind fun (src, c) =>
    let c := { c with C := src >>> 7 != 0 }
    let src := (src <<< 1) &&& 0xFF
    let c := c.setZN (src : Int)
    if instruction.mode = MemMode.ACCUMULATOR then some { c with A := src }
    else c.write_memory data instruction.mode src

/-- `CPU.BCC`. -/
def CPU.BCC (c : CPU) (instruction : Instruction) (data : Nat) : Option CPU :=
  if ¬ c.C then
    (c.address_for_mode data instruction.mode).map fun (address, c) =>
      { c with PC := address, jumped := true }
  else some c

/-- `CPU.BCS`. -/
def CPU.BCS (c : CPU) (instruction : Instruction) (data : Nat) : Option CPU :=
  if c.C then
    (c.address_for_mode data instruction.mode).map fun (address, c) =>
      { c with PC := address, jumped := true }
  else some c

/-- `CPU.BEQ`. -/
def CPU.BEQ (c : CPU) (instruction : Instruction) (data : Nat) : Option CPU :=
  if c.Z then
    (c.address_for_mode data instruction.mode).map fun (address, c) =>
      { c with PC := address, jumped := true }
  else some c

/-- `CPU.BIT`. -/
def CPU.BIT (c : CPU) (instruction : Instruction) (data : Nat) : Option CPU :=
  (c.read_memory data instruction.mode).map fun (src, c) =>
    { c with
      V := (src >>> 6) &&& 1 != 0,
      Z := src &&& c.A == 0,
      N := src >>> 7 == 1 }

/-- `CPU.BMI`. -/
def CPU.BMI (c : CPU) (instruction : Instruction) (data : Nat) : Option CPU :=
  if c.N then
    (c.address_for_mode data instruction.mode).map fun (address, c) =>
      { c with PC := address, jumped := true }
  else some c

/-- `CPU.BNE`. -/
def CPU.BNE (c : CPU) (instruction : Instruction) (data : Nat) : Option CPU :=
  if ¬ c.Z then
    (c.address_for_mode data instruction.mode).map fun (address, c) =>
      { c with PC := address, jumped := true }
  else some c

/-- `CPU.BPL`. -/
def CPU.BPL (c : CPU) (instruction : Instruction) (data : Nat) : Option CPU :=
  if ¬ c.N then
    (c.address_for_mode data instruction.mode).map fun (address, c) =>
      { c with PC := address, jumped := true }
  else some c

/-- `CPU.BRK`. -/
def CPU.BRK (c : CPU) (instruction : Instruction) (data : Nat) : Option CPU :=
  let c := { c with PC := c.PC + 2 }
  (c.stack_push ((c.PC >>> 8) &&& 0xFF)).bind fun c =>
  (c.stack_push (c.PC &&& 0xFF)).bind fun c =>
  let c := { c with B := true }
  (c.stack_push c.status).bind fun c =>
  let c := { c with B := false, I := true }
  (c.read_memory 0xFFFE MemMode.ABSOLUTE).bind fun (lb, c) =>
  (c.read_memory 0xFFFF MemMode.ABSOLUTE).map fun (hb, c) =>
  { c with PC := lb ||| (hb <<< 8), jumped := true }

/-- `CPU.BVC`. -/
def CPU.BVC (c : CPU) (instruction : Instruction) (data : Nat) : Option CPU :=
  if ¬ c.V then
    (c.address_for_mode data instruction.mode).map fun (address, c) =>
      { c with PC := address, jumped := true }
  else some c

/-- `CPU.BVS`. -/
def CPU.BVS (c : CPU) (instruction : Instruction) (data : Nat) : Option CPU :=
  if c.V then
    (c.address_for_mode data instruction.mode).map fun (address, c) =>
      { c with PC := address, jumped := true }
  else some c

/-- `CPU.CLC`. -/
def CPU.CLC (c : CPU) (instruction : Instruction) (data : Nat) : Option CPU :=
  some { c with C := false }

/-- `CPU.CLD`. -/
def CPU.CLD (c : CPU) (instruction : Instruction) (data : Nat) : Option CPU :=
  some { c with D := false }

/-- `CPU.CLI`. -/
def CPU.CLI (c : CPU) (instruction : Instruction) (data : Nat) : Option CPU :=
  some { c with I := false }

/-- `CPU.CLV`. -/
def CPU.CLV (c : CPU) (instruction : Instruction) (data : Nat) : Option CPU :=
  some { c with V := false }

/-- `CPU.CMP`: the subtraction passed to `setZN` may be negative. -/
def CPU.CMP (c : CPU) (instruction : Instruction) (data : Nat) : Option CPU :=
  (c.read_memory data instruction.mode).map fun (src, c) =>
    let c := { c with C := decide (c.A ≥ src) }
    c.setZN ((c.A : Int) - (src : Int))

/-- `CPU.CPX`. -/
def CPU.CPX (c : CPU) (instruction : Instruction) (data : Nat) : Option CPU :=
  (c.read_memory data instruction.mode).map fun (src, c) =>
    let c := { c with C := decide (c.X ≥ src) }
    c.setZN ((c.X : Int) - (src : Int))

/-- `CPU.CPY`. -/
def CPU.CPY (c : CPU) (instruction : Instruction) (data : Nat) : Option CPU :=
  (c.read_memory data instruction.mode).map fun (src, c) =>
    let c := { c with C := decide (c.Y ≥ src) }
    c.setZN ((c.Y : Int) - (src : Int))

/-- `CPU.DEC`: Python `(src - 1) & 0xFF` equals `(src + 255) % 256` for
every non-negative `src`. -/
def CPU.DEC (c : CPU) (instruction : Instruction) (data : Nat) : Option CPU :=
  (c.read_memory data instruction.mode).bind fun (src, c) =>
    let src := (src + 255) % 256
    (c.write_memory data instruction.mode src).map fun c =>
      c.setZN (src : Int)

/-- `CPU.DEX`. -/
def CPU.DEX (c : CPU) (instruction : Instruction) (data : Nat) : Option CPU :=
  let c := { c with X := (c.X + 255) % 256 }
  some (c.setZN (c.X : Int))

/-- `CPU.DEY`. -/
def CPU.DEY (c : CPU) (instruction : Instruction) (data : Nat) : Option CPU :=
  let c := { c with Y := (c.Y + 255) % 256 }
  some (c.setZN (c.Y : Int))

/-- `CPU.EOR`. -/
def CPU.EOR (c : CPU) (instruction : Instruction) (data : Nat) : Option CPU :=
  (c.read_memory data instruction.mode).map fun (src, c) =>
    let c := { c with A := c.A ^^^ src }
    c.setZN (c.A : Int)

/-- `CPU.INC`. -/
def CPU.INC (c : CPU) (instruction : Instruction) (data : Nat) : Option CPU :=
  (c.read_memory data instruction.mode).bind fun (src, c) =>
    let src := (src + 1) &&& 0xFF
    (c.write_memory data instruction.mode src).map fun c =>
      c.setZN (src : Int)

/-- `CPU.INX`. -/
def CPU.INX (c : CPU) (instruction : Instruction) (data : Nat) : Option CPU :=
  let c := { c with X := (c.X + 1) &&& 0xFF }
  some (c.setZN (c.X : Int))

/-- `CPU.INY`. -/
def CPU.INY (c : CPU) (instruction : Instruction) (data : Nat) : Option CPU :=
  let c := { c with Y := (c.Y + 1) &&& 0xFF }
  some (c.setZN (c.Y : Int))

/-- `CPU.JMP`: PC from the effective address (INDIRECT honours the page
bug, but reads the pointer straight out of the `ram` array). -/
def CPU.JMP (c : CPU) (instruction : Instruction) (data : Nat) : Option CPU :=
  (c.address_for_mode data instruction.mode).map fun (address, c) =>
    { c with PC := address, jumped := true }

/-- `CPU.JSR`. -/
def CPU.JSR (c : CPU) (instruction : Instruction) (data : Nat) : Option CPU :=
  let c := { c with PC := c.PC + 2 }
  (c.stack_push ((c.PC >>> 8) &&& 0xFF)).bind fun c =>
  (c.stack_push (c.PC &&& 0xFF)).bind fun c =>
  (c.address_for_mode data instruction.mode).map fun (address, c) =>
  { c with PC := address, jumped := true }

/-- `CPU.LDA`. -/
def CPU.LDA (c : CPU) (instruction : Instruction) (data : Nat) : Option CPU :=
  (c.read_memory data instruction.mode).map fun (src, c) =>
    let c := { c with A := src }
    c.setZN (c.A : Int)

/-- `CPU.LDX`. -/
def CPU.LDX (c : CPU) (instruction : Instruction) (data : Nat) : Option CPU :=
  (c.read_memory data instruction.mode).map fun (src, c) =>
    let c := { c with X := src }
    c.setZN (c.X : Int)

/-- `CPU.LDY`. -/
def CPU.LDY (c : CPU) (instruction : Instruction) (data : Nat) : Option CPU :=
  (c.read_memory data instruction.mode).map fun (src, c) =>
    let c := { c with Y := src }
    c.setZN (c.Y : Int)

/-- `CPU.LSR`. -/
def CPU.LSR (c : CPU) (instruction : Instruction) (data : Nat) : Option CPU :=
  (if instruction.mode = MemMode.ACCUMULATOR then some (c.A, c)
   else c.read_memory data instruction.mode).bind fun (src, c) =>
    let c := { c with C := src &&& 1 != 0 }
    let src := src >>> 1
    let c := c.setZN (src : Int)
    if instruction.mode = MemMode.ACCUMULATOR then some { c with A := src }
    else c.write_memory data instruction.mode src

/-- `CPU.NOP`. -/
def CPU.NOP (c : CPU) (instruction : Instruction) (data : Nat) : Option CPU :=
  some c

/-- `CPU.ORA`. -/
def CPU.ORA (c : CPU) (instruction : Instruction) (data : Nat) : Option CPU :=
  (c.read_memory data instruction.mode).map fun (src, c) =>
    let c := { c with A := c.A ||| src }
    c.setZN (c.A : Int)

/-- `CPU.PHA`. -/
def CPU.PHA (c : CPU) (instruction : Instruction) (data : Nat) : Option CPU :=
  c.stack_push c.A

/-- `CPU.PHP`: push status with B set, then clear B. -/
def CPU.PHP (c : CPU) (instruction : Instruction) (data : Nat) : Option CPU :=
  let c := { c with B := true }
  (c.stack_push c.status).map fun c => { c with B := false }

/-- `CPU.PLA`. -/
def CPU.PLA (c : CPU) (instruction : Instruction) (data : Nat) : Option CPU :=
  c.stack_pop.map fun (v, c) =>
    let c := { c with A := v }
    c.setZN (c.A : Int)

/-- `CPU.PLP`: pop into the flags (B forced to false by `set_status`). -/
def CPU.PLP (c : CPU) (instruction : Instruction) (data : Nat) : Option CPU :=
  c.stack_pop.map fun (v, c) => c.set_status v

/-- `CPU.ROL`. -/
def CPU.ROL (c : CPU) (instruction : Instruction) (data : Nat) : Option CPU :=
  (if instruction.mode = MemMode.ACCUMULATOR then some (c.A, c)
   else c.read_memory data instruction.mode).bind fun (src, c) =>
    let old_c := c.C
    let c := { c with C := (src >>> 7) &&& 1 != 0 }
    let src := ((src <<< 1) ||| old_c.toNat) &&& 0xFF
    let c := c.setZN (src : Int)
    if instruction.mode = MemMode.ACCUMULATOR then some { c with A := src }
    else c.write_memory data instruction.mode src

/-- `CPU.ROR`. -/
def CPU.ROR (c : CPU) (instruction : Instruction) (data : Nat) : Option CPU :=
  (if instruction.mode = MemMode.ACCUMULATOR then some (c.A, c)
   else c.read_memory data instruction.mode).bind fun (src, c) =>
    let old_c := c.C
    let c := { c with C := src &&& 1 != 0 }
    let src := ((src >>> 1) ||| (old_c.toNat <<< 7)) &&& 0xFF
    let c := c.setZN (src : Int)
    if instruction.mode = MemMode.ACCUMULATOR then some { c with A := src }
    else c.write_memory data instruction.mode src

/-- `CPU.RTI`. -/
def CPU.RTI (c : CPU) (instruction : Instruction) (data : Nat) : Option CPU :=
  c.stack_pop.bind fun (v, c) =>
  let c := c.set_status v
  c.stack_pop.bind fun (lb, c) =>
  c.stack_pop.map fun (hb, c) =>
  { c with PC := (hb <<< 8) ||| lb, jumped := true }

/-- `CPU.RTS`. -/
def CPU.RTS (c : CPU) (instruction : Instruction) (data : Nat) : Option CPU :=
  c.stack_pop.bind fun (lb, c) =>
  c.stack_pop.map fun (hb, c) =>
  { c with PC := ((hb <<< 8) ||| lb) + 1, jumped := true }

/-- `CPU.SBC`: subtract with carry on `Int`; Python's `% 256` on a
negative value is `Int.emod`, and `t & 0x80` on a possibly negative `t`
equals `(t mod 256) & 0x80`. -/
def CPU.SBC (c : CPU) (instruction : Instruction) (data : Nat) : Option CPU :=
  (c.read_memory data instruction.mode).map fun (src, c) =>
    let signed_result : Int := (c.A : Int) - (src : Int) - (1 - c.C.toNat)
    let c := { c with
      V := decide ((c.A ^^^ src) &&& 0x80 ≠ 0 ∧
                   (c.A ^^^ (signed_result.emod 256).toNat) &&& 0x80 ≠ 0),
      A := (((c.A : Int) - (src : Int) - (1 - c.C.toNat)).emod 256).toNat,
      C := ! decide (signed_result < 0) }
    c.setZN (c.A : Int)

/-- `CPU.SEC`. -/
def CPU.SEC (c : CPU) (instruction : Instruction) (data : Nat) : Option CPU :=
  some { c with C := true }

/-- `CPU.SED`. -/
def CPU.SED (c : CPU) (instruction : Instruction) (data : Nat) : Option CPU :=
  some { c with D := true }

/-- `CPU.SEI`. -/
def CPU.SEI (c : CPU) (instruction : Instruction) (data : Nat) : Option CPU :=
  some { c with I := true }

/-- `CPU.STA`. -/
def CPU.STA (c : CPU) (instruction : Instruction) (data : Nat) : Option CPU :=
  c.write_memory data instruction.mode c.A

/-- `CPU.STX`. -/
def CPU.STX (c : CPU) (instruction : Instruction) (data : Nat) : Option CPU :=
  c.write_memory data instruction.mode c.X

/-- `CPU.STY`. -/
def CPU.STY (c : CPU) (instruction : Instruction) (data : Nat) : Option CPU :=
  c.write_memory data instruction.mode c.Y

/-- `CPU.TAX`. -/
def CPU.TAX (c : CPU) (instruction : Instruction) (data : Nat) : Option CPU :=
  let c := { c with X := c.A }
  some (c.setZN (c.X : Int))

/-- `CPU.TAY`. -/
def CPU.TAY (c : CPU) (instruction : Instruction) (data : Nat) : Option CPU :=
  let c := { c with Y := c.A }
  some (c.setZN (c.Y : Int))

/-- `CPU.TSX`. -/
def CPU.TSX (c : CPU) (instruction : Instruction) (data : Nat) : Option CPU :=
  let c := { c with X := c.SP }
  some (c.setZN (c.X : Int))

/-- `CPU.TXA`. -/
def CPU.TXA (c : CPU) (instruction : Instruction) (data : Nat) : Option CPU :=
  let c := { c with A := c.X }
  some (c.setZN (c.A : Int))

/-- `CPU.TXS` (no Z/N update). -/
def CPU.TXS (c : CPU) (instruction : Instruction) (data : Nat) : Option CPU :=
  some { c with SP := c.X }

/-- `CPU.TYA`. -/
def CPU.TYA (c : CPU) (instruction : Instruction) (data : Nat) : Option CPU :=
  let c := { c with A := c.Y }
  some (c.setZN (c.A : Int))

/-- `CPU.unimplemented`: the handler bound to every unofficial opcode.
It emits a diagnostic naming the mnemonic and performs no state change. -/
def CPU.unimplemented (c : CPU) (instruction : Instruction) (data : Nat) :
    Option CPU :=
  some c

/-- Dispatch on the handler tag bound in the instruction table. -/
def CPU.execute (c : CPU) (h : Handler) (instruction : Instruction)
    (data : Nat) : Option CPU :=
  match h with
  | .ADC => c.ADC instruction data
  | .AND => c.AND instruction data
  | .ASL => c.ASL instruction data
  | .BCC => c.BCC instruction data
  | .BCS => c.BCS instruction data
  | .BEQ => c.BEQ instruction data
  | .BIT => c.BIT instruction data
  | .BMI => c.BMI instruction data
  | .BNE => c.BNE instruction data
  | .BPL => c.BPL instruction data
  | .BRK => c.BRK instruction data
  | .BVC => c.BVC instruction data
  | .BVS => c.BVS instruction data
  | .CLC => c.CLC instruction data
  | .CLD => c.CLD instruction data
  | .CLI => c.CLI instruction data
  | .CLV => c.CLV instruction data
  | .CMP => c.CMP instruction data
  | .CPX => c.CPX instruction data
  | .CPY => c.CPY instruction data
  | .DEC => c.DEC instruction data
  | .DEX => c.DEX instruction data
  | .DEY => c.DEY instruction data
  | .EOR => c.EOR instruction data
  | .INC => c.INC instruction data
  | .INX => c.INX instruction data
  | .INY => c.INY instruction data
  | .JMP => c.JMP instruction data
  | .JSR => c.JSR instruction data
  | .LDA => c.LDA instruction data
  | .LDX => c.LDX instruction data
  | .LDY => c.LDY instruction data
  | .LSR => c.LSR instruction data
  | .NOP => c.NOP instruction data
  | .ORA => c.ORA instruction data
  | .PHA => c.PHA instruction data
  | .PHP => c.PHP instruction data
  | .PLA => c.PLA instruction data
  | .PLP => c.PLP instruction data
  | .ROL => c.ROL instruction data
  | .ROR => c.ROR instruction data
  | .RTI => c.RTI instruction data
  | .RTS => c.RTS instruction data
  | .SBC => c.SBC instruction data
  | .SEC => c.SEC instruction data
  | .SED => c.SED instruction data
  | .SEI => c.SEI instruction data
  | .STA => c.STA instruction data
  | .STX => c.STX instruction data
  | .STY => c.STY instruction data
  | .TAX => c.TAX instruction data
  | .TAY => c.TAY instruction data
  | .TSX => c.TSX instruction data
  | .TXA => c.TXA instruction data
  | .TXS => c.TXS instruction data
  | .TYA => c.TYA instruction data
  | .unimplemented => c.unimplemented instruction data

/-- Instruction-table rows for opcodes `0x00`–`0x0F`. -/
def instructions_00 : List Instruction :=
  [⟨.BRK, .BRK, .IMPLIED, 1, 7, 0⟩,
   ⟨.ORA, .ORA, .INDEXED_INDIRECT, 2, 6, 0⟩,
   ⟨.KIL, .unimplemented, .IMPLIED, 0, 2, 0⟩,
   ⟨.SLO, .unimplemented, .INDEXED_INDIRECT, 0, 8, 0⟩,
   ⟨.NOP, .NOP, .ZEROPAGE, 2, 3, 0⟩,
   ⟨.ORA, .ORA, .ZEROPAGE, 2, 3, 0⟩,
   ⟨.ASL, .ASL, .ZEROPAGE, 2, 5, 0⟩,
   ⟨.SLO, .unimplemented, .ZEROPAGE, 0, 5, 0⟩,
   ⟨.PHP, .PHP, .IMPLIED, 1, 3, 0⟩,
   ⟨.ORA, .ORA, .IMMEDIATE, 2, 2, 0⟩,
   ⟨.ASL, .ASL, .ACCUMULATOR, 1, 2, 0⟩,
   ⟨.ANC, .unimplemented, .IMMEDIATE, 0, 2, 0⟩,
   ⟨.NOP, .NOP, .ABSOLUTE, 3, 4, 0⟩,
   ⟨.ORA, .ORA, .ABSOLUTE, 3, 4, 0⟩,
   ⟨.ASL, .ASL, .ABSOLUTE, 3, 6, 0⟩,
   ⟨.SLO, .unimplemented, .ABSOLUTE, 0, 6, 0⟩]

/-- Instruction-table rows for opcodes `0x10`–`0x1F`. -/
def instructions_10 : List Instruction :=
  [⟨.BPL, .BPL, .RELATIVE, 2, 2, 1⟩,
   ⟨.ORA, .ORA, .INDIRECT_INDEXED, 2, 5, 1⟩,
   ⟨.KIL, .unimplemented, .IMPLIED, 0, 2, 0⟩,
   ⟨.SLO, .unimplemented, .INDIRECT_INDEXED, 0, 8, 0⟩,
   ⟨.NOP, .NOP, .ZEROPAGE_X, 2, 4, 0⟩,
   ⟨.ORA, .ORA, .ZEROPAGE_X, 2, 4, 0⟩,
   ⟨.ASL, .ASL, .ZEROPAGE_X, 2, 6, 0⟩,
   ⟨.SLO, .unimplemented, .ZEROPAGE_X, 0, 6, 0⟩,
   ⟨.CLC, .CLC, .IMPLIED, 1, 2, 0⟩,
   ⟨.ORA, .ORA, .ABSOLUTE_Y, 3, 4, 1⟩,
   ⟨.NOP, .NOP, .IMPLIED, 1, 2, 0⟩,
   ⟨.SLO, .unimplemented, .ABSOLUTE_Y, 0, 7, 0⟩,
   ⟨.NOP, .NOP, .ABSOLUTE_X, 3, 4, 1⟩,
   ⟨.ORA, .ORA, .ABSOLUTE_X, 3, 4, 1⟩,
   ⟨.ASL, .ASL, .ABSOLUTE_X, 3, 7, 0⟩,
   ⟨.SLO, .unimplemented, .ABSOLUTE_X, 0, 7, 0⟩]

/-- Instruction-table rows for opcodes `0x20`–`0x2F`. -/
def instructions_20 : List Instruction :=
  [⟨.JSR, .JSR, .ABSOLUTE, 3, 6, 0⟩,
   ⟨.AND, .AND, .INDEXED_INDIRECT, 2, 6, 0⟩,
   ⟨.KIL, .unimplemented, .IMPLIED, 0, 2, 0⟩,
   ⟨.RLA, .unimplemented, .INDEXED_INDIRECT, 0, 8, 0⟩,
   ⟨.BIT, .BIT, .ZEROPAGE, 2, 3, 0⟩,
   ⟨.AND, .AND, .ZEROPAGE, 2, 3, 0⟩,
   ⟨.ROL, .ROL, .ZEROPAGE, 2, 5, 0⟩,
   ⟨.RLA, .unimplemented, .ZEROPAGE, 0, 5, 0⟩,
   ⟨.PLP, .PLP, .IMPLIED, 1, 4, 0⟩,
   ⟨.AND, .AND, .IMMEDIATE, 2, 2, 0⟩,
   ⟨.ROL, .ROL, .ACCUMULATOR, 1, 2, 0⟩,
   ⟨.ANC, .unimplemented, .IMMEDIATE, 0, 2, 0⟩,
   ⟨.BIT, .BIT, .ABSOLUTE, 3, 4, 0⟩,
   ⟨.AND, .AND, .ABSOLUTE, 3, 4, 0⟩,
   ⟨.ROL, .ROL, .ABSOLUTE, 3, 6, 0⟩,
   ⟨.RLA, .unimplemented, .ABSOLUTE, 0, 6, 0⟩]

/-- Instruction-table rows for opcodes `0x30`–`0x3F`. -/
def instructions_30 : List Instruction :=
  [⟨.BMI, .BMI, .RELATIVE, 2, 2, 1⟩,
   ⟨.AND, .AND, .INDIRECT_INDEXED, 2, 5, 1⟩,
   ⟨.KIL, .unimplemented, .IMPLIED, 0, 2, 0⟩,
   ⟨.RLA, .unimplemented, .INDIRECT_INDEXED, 0, 8, 0⟩,
   ⟨.NOP, .NOP, .ZEROPAGE_X, 2, 4, 0⟩,
   ⟨.AND, .AND, .ZEROPAGE_X, 2, 4, 0⟩,
   ⟨.ROL, .ROL, .ZEROPAGE_X, 2, 6, 0⟩,
   ⟨.RLA, .unimplemented, .ZEROPAGE_X, 0, 6, 0⟩,
   ⟨.SEC, .SEC, .IMPLIED, 1, 2, 0⟩,
   ⟨.AND, .AND, .ABSOLUTE_Y, 3, 4, 1⟩,
   ⟨.NOP, .NOP, .IMPLIED, 1, 2, 0⟩,
   ⟨.RLA, .unimplemented, .ABSOLUTE_Y, 0, 7, 0⟩,
   ⟨.NOP, .NOP, .ABSOLUTE_X, 3, 4, 1⟩,
   ⟨.AND, .AND, .ABSOLUTE_X, 3, 4, 1⟩,
   ⟨.ROL, .ROL, .ABSOLUTE_X, 3, 7, 0⟩,
   ⟨.RLA, .unimplemented, .ABSOLUTE_X, 0, 7, 0⟩]

/-- Instruction-table rows for opcodes `0x40`–`0x4F`. -/
def instructions_40 : List Instruction :=
  [⟨.RTI, .RTI, .IMPLIED, 1, 6, 0⟩,
   ⟨.EOR, .EOR, .INDEXED_INDIRECT, 2, 6, 0⟩,
   ⟨.KIL, .unimplemented, .IMPLIED, 0, 2, 0⟩,
   ⟨.SRE, .unimplemented, .INDEXED_INDIRECT, 0, 8, 0⟩,
   ⟨.NOP, .NOP, .ZEROPAGE, 2, 3, 0⟩,
   ⟨.EOR, .EOR, .ZEROPAGE, 2, 3, 0⟩,
   ⟨.LSR, .LSR, .ZEROPAGE, 2, 5, 0⟩,
   ⟨.SRE, .unimplemented, .ZEROPAGE, 0, 5, 0⟩,
   ⟨.PHA, .PHA, .IMPLIED, 1, 3, 0⟩,
   ⟨.EOR, .EOR, .IMMEDIATE, 2, 2, 0⟩,
   ⟨.LSR, .LSR, .ACCUMULATOR, 1, 2, 0⟩,
   ⟨.ALR, .unimplemented, .IMMEDIATE, 0, 2, 0⟩,
   ⟨.JMP, .JMP, .ABSOLUTE, 3, 3, 0⟩,
   ⟨.EOR, .EOR, .ABSOLUTE, 3, 4, 0⟩,
   ⟨.LSR, .LSR, .ABSOLUTE, 3, 6, 0⟩,
   ⟨.SRE, .unimplemented, .ABSOLUTE, 0, 6, 0⟩]

/-- Instruction-table rows for opcodes `0x50`–`0x5F`. -/
def instructions_50 : List Instruction :=
  [⟨.BVC, .BVC, .RELATIVE, 2, 2, 1⟩,
   ⟨.EOR, .EOR, .INDIRECT_INDEXED, 2, 5, 1⟩,
   ⟨.KIL, .unimplemented, .IMPLIED, 0, 2, 0⟩,
   ⟨.SRE, .unimplemented, .INDIRECT_INDEXED, 0, 8, 0⟩,
   ⟨.NOP, .NOP, .ZEROPAGE_X, 2, 4, 0⟩,
   ⟨.EOR, .EOR, .ZEROPAGE_X, 2, 4, 0⟩,
   ⟨.LSR, .LSR, .ZEROPAGE_X, 2, 6, 0⟩,
   ⟨.SRE, .unimplemented, .ZEROPAGE_X, 0, 6, 0⟩,
   ⟨.CLI, .CLI, .IMPLIED, 1, 2, 0⟩,
   ⟨.EOR, .EOR, .ABSOLUTE_Y, 3, 4, 1⟩,
   ⟨.NOP, .NOP, .IMPLIED, 1, 2, 0⟩,
   ⟨.SRE, .unimplemented, .ABSOLUTE_Y, 0, 7, 0⟩,
   ⟨.NOP, .NOP, .ABSOLUTE_X, 3, 4, 1⟩,
   ⟨.EOR, .EOR, .ABSOLUTE_X, 3, 4, 1⟩,
   ⟨.LSR, .LSR, .ABSOLUTE_X, 3, 7, 0⟩,
   ⟨.SRE, .unimplemented, .ABSOLUTE_X, 0, 7, 0⟩]

/-- Instruction-table rows for opcodes `0x60`–`0x6F`. -/
def instructions_60 : List Instruction :=
  [⟨.RTS, .RTS, .IMPLIED, 1, 6, 0⟩,
   ⟨.ADC, .ADC, .INDEXED_INDIRECT, 2, 6, 0⟩,
   ⟨.KIL, .unimplemented, .IMPLIED, 0, 2, 0⟩,
   ⟨.RRA, .unimplemented, .INDEXED_INDIRECT, 0, 8, 0⟩,
   ⟨.NOP, .NOP, .ZEROPAGE, 2, 3, 0⟩,
   ⟨.ADC, .ADC, .ZEROPAGE, 2, 3, 0⟩,
   ⟨.ROR, .ROR, .ZEROPAGE, 2, 5, 0⟩,
   ⟨.RRA, .unimplemented, .ZEROPAGE, 0, 5, 0⟩,
   ⟨.PLA, .PLA, .IMPLIED, 1, 4, 0⟩,
   ⟨.ADC, .ADC, .IMMEDIATE, 2, 2, 0⟩,
   ⟨.ROR, .ROR, .ACCUMULATOR, 1, 2, 0⟩,
   ⟨.ARR, .unimplemented, .IMMEDIATE, 0, 2, 0⟩,
   ⟨.JMP, .JMP, .INDIRECT, 3, 5, 0⟩,
   ⟨.ADC, .ADC, .ABSOLUTE, 3, 4, 0⟩,
   ⟨.ROR, .ROR, .ABSOLUTE, 3, 6, 0⟩,
   ⟨.RRA, .unimplemented, .ABSOLUTE, 0, 6, 0⟩]

/-- Instruction-table rows for opcodes `0x70`–`0x7F`. -/
def instructions_70 : List Instruction :=
  [⟨.BVS, .BVS, .RELATIVE, 2, 2, 1⟩,
   ⟨.ADC, .ADC, .INDIRECT_INDEXED, 2, 5, 1⟩,
   ⟨.KIL, .unimplemented, .IMPLIED, 0, 2, 0⟩,
   ⟨.RRA, .unimplemented, .INDIRECT_INDEXED, 0, 8, 0⟩,
   ⟨.NOP, .NOP, .ZEROPAGE_X, 2, 4, 0⟩,
   ⟨.ADC, .ADC, .ZEROPAGE_X, 2, 4, 0⟩,
   ⟨.ROR, .ROR, .ZEROPAGE_X, 2, 6, 0⟩,
   ⟨.RRA, .unimplemented, .ZEROPAGE_X, 0, 6, 0⟩,
   ⟨.SEI, .SEI, .IMPLIED, 1, 2, 0⟩,
   ⟨.ADC, .ADC, .ABSOLUTE_Y, 3, 4, 1⟩,
   ⟨.NOP, .NOP, .IMPLIED, 1, 2, 0⟩,
   ⟨.RRA, .unimplemented, .ABSOLUTE_Y, 0, 7, 0⟩,
   ⟨.NOP, .NOP, .ABSOLUTE_X, 3, 4, 1⟩,
   ⟨.ADC, .ADC, .ABSOLUTE_X, 3, 4, 1⟩,
   ⟨.ROR, .ROR, .ABSOLUTE_X, 3, 7, 0⟩,
   ⟨.RRA, .unimplemented, .ABSOLUTE_X, 0, 7, 0⟩]

/-- Instruction-table rows for opcodes `0x80`–`0x8F`. -/
def instructions_80 : List Instruction :=
  [⟨.NOP, .NOP, .IMMEDIATE, 2, 2, 0⟩,
   ⟨.STA, .STA, .INDEXED_INDIRECT, 2, 6, 0⟩,
   ⟨.NOP, .NOP, .IMMEDIATE, 0, 2, 0⟩,
   ⟨.SAX, .unimplemented, .INDEXED_INDIRECT, 0, 6, 0⟩,
   ⟨.STY, .STY, .ZEROPAGE, 2, 3, 0⟩,
   ⟨.STA, .STA, .ZEROPAGE, 2, 3, 0⟩,
   ⟨.STX, .STX, .ZEROPAGE, 2, 3, 0⟩,
   ⟨.SAX, .unimplemented, .ZEROPAGE, 0, 3, 0⟩,
   ⟨.DEY, .DEY, .IMPLIED, 1, 2, 0⟩,
   ⟨.NOP, .NOP, .IMMEDIATE, 0, 2, 0⟩,
   ⟨.TXA, .TXA, .IMPLIED, 1, 2, 0⟩,
   ⟨.XAA, .unimplemented, .IMMEDIATE, 0, 2, 0⟩,
   ⟨.STY, .STY, .ABSOLUTE, 3, 4, 0⟩,
   ⟨.STA, .STA, .ABSOLUTE, 3, 4, 0⟩,
   ⟨.STX, .STX, .ABSOLUTE, 3, 4, 0⟩,
   ⟨.SAX, .unimplemented, .ABSOLUTE, 0, 4, 0⟩]

/-- Instruction-table rows for opcodes `0x90`–`0x9F`. -/
def instructions_90 : List Instruction :=
  [⟨.BCC, .BCC, .RELATIVE, 2, 2, 1⟩,
   ⟨.STA, .STA, .INDIRECT_INDEXED, 2, 6, 0⟩,
   ⟨.KIL, .unimplemented, .IMPLIED, 0, 2, 0⟩,
   ⟨.AHX, .unimplemented, .INDIRECT_INDEXED, 0, 6, 0⟩,
   ⟨.STY, .STY, .ZEROPAGE_X, 2, 4, 0⟩,
   ⟨.STA, .STA, .ZEROPAGE_X, 2, 4, 0⟩,
   ⟨.STX, .STX, .ZEROPAGE_Y, 2, 4, 0⟩,
   ⟨.SAX, .unimplemented, .ZEROPAGE_Y, 0, 4, 0⟩,
   ⟨.TYA, .TYA, .IMPLIED, 1, 2, 0⟩,
   ⟨.STA, .STA, .ABSOLUTE_Y, 3, 5, 0⟩,
   ⟨.TXS, .TXS, .IMPLIED, 1, 2, 0⟩,
   ⟨.TAS, .unimplemented, .ABSOLUTE_Y, 0, 5, 0⟩,
   ⟨.SHY, .unimplemented, .ABSOLUTE_X, 0, 5, 0⟩,
   ⟨.STA, .STA, .ABSOLUTE_X, 3, 5, 0⟩,
   ⟨.SHX, .unimplemented, .ABSOLUTE_Y, 0, 5, 0⟩,
   ⟨.AHX, .unimplemented, .ABSOLUTE_Y, 0, 5, 0⟩]

/-- Instruction-table rows for opcodes `0xA0`–`0xAF`. -/
def instructions_A0 : List Instruction :=
  [⟨.LDY, .LDY, .IMMEDIATE, 2, 2, 0⟩,
   ⟨.LDA, .LDA, .INDEXED_INDIRECT, 2, 6, 0⟩,
   ⟨.LDX, .LDX, .IMMEDIATE, 2, 2, 0⟩,
   ⟨.LAX, .unimplemented, .INDEXED_INDIRECT, 0, 6, 0⟩,
   ⟨.LDY, .LDY, .ZEROPAGE, 2, 3, 0⟩,
   ⟨.LDA, .LDA, .ZEROPAGE, 2, 3, 0⟩,
   ⟨.LDX, .LDX, .ZEROPAGE, 2, 3, 0⟩,
   ⟨.LAX, .unimplemented, .ZEROPAGE, 0, 3, 0⟩,
   ⟨.TAY, .TAY, .IMPLIED, 1, 2, 0⟩,
   ⟨.LDA, .LDA, .IMMEDIATE, 2, 2, 0⟩,
   ⟨.TAX, .TAX, .IMPLIED, 1, 2, 0⟩,
   ⟨.LAX, .unimplemented, .IMMEDIATE, 0, 2, 0⟩,
   ⟨.LDY, .LDY, .ABSOLUTE, 3, 4, 0⟩,
   ⟨.LDA, .LDA, .ABSOLUTE, 3, 4, 0⟩,
   ⟨.LDX, .LDX, .ABSOLUTE, 3, 4, 0⟩,
   ⟨.LAX, .unimplemented, .ABSOLUTE, 0, 4, 0⟩]

/-- Instruction-table rows for opcodes `0xB0`–`0xBF`. -/
def instructions_B0 : List Instruction :=
  [⟨.BCS, .BCS, .RELATIVE, 2, 2, 1⟩,
   ⟨.LDA, .LDA, .INDIRECT_INDEXED, 2, 5, 1⟩,
   ⟨.KIL, .unimplemented, .IMPLIED, 0, 2, 0⟩,
   ⟨.LAX, .unimplemented, .INDIRECT_INDEXED, 0, 5, 1⟩,
   ⟨.LDY, .LDY, .ZEROPAGE_X, 2, 4, 0⟩,
   ⟨.LDA, .LDA, .ZEROPAGE_X, 2, 4, 0⟩,
   ⟨.LDX, .LDX, .ZEROPAGE_Y, 2, 4, 0⟩,
   ⟨.LAX, .unimplemented, .ZEROPAGE_Y, 0, 4, 0⟩,
   ⟨.CLV, .CLV, .IMPLIED, 1, 2, 0⟩,
   ⟨.LDA, .LDA, .ABSOLUTE_Y, 3, 4, 1⟩,
   ⟨.TSX, .TSX, .IMPLIED, 1, 2, 0⟩,
   ⟨.LAS, .unimplemented, .ABSOLUTE_Y, 0, 4, 1⟩,
   ⟨.LDY, .LDY, .ABSOLUTE_X, 3, 4, 1⟩,
   ⟨.LDA, .LDA, .ABSOLUTE_X, 3, 4, 1⟩,
   ⟨.LDX, .LDX, .ABSOLUTE_Y, 3, 4, 1⟩,
   ⟨.LAX, .unimplemented, .ABSOLUTE_Y, 0, 4, 1⟩]

/-- Instruction-table rows for opcodes `0xC0`–`0xCF`. -/
def instructions_C0 : List Instruction :=
  [⟨.CPY, .CPY, .IMMEDIATE, 2, 2, 0⟩,
   ⟨.CMP, .CMP, .INDEXED_INDIRECT, 2, 6, 0⟩,
   ⟨.NOP, .NOP, .IMMEDIATE, 0, 2, 0⟩,
   ⟨.DCP, .unimplemented, .INDEXED_INDIRECT, 0, 8, 0⟩,
   ⟨.CPY, .CPY, .ZEROPAGE, 2, 3, 0⟩,
   ⟨.CMP, .CMP, .ZEROPAGE, 2, 3, 0⟩,
   ⟨.DEC, .DEC, .ZEROPAGE, 2, 5, 0⟩,
   ⟨.DCP, .unimplemented, .ZEROPAGE, 0, 5, 0⟩,
   ⟨.INY, .INY, .IMPLIED, 1, 2, 0⟩,
   ⟨.CMP, .CMP, .IMMEDIATE, 2, 2, 0⟩,
   ⟨.DEX, .DEX, .IMPLIED, 1, 2, 0⟩,
   ⟨.AXS, .unimplemented, .IMMEDIATE, 0, 2, 0⟩,
   ⟨.CPY, .CPY, .ABSOLUTE, 3, 4, 0⟩,
   ⟨.CMP, .CMP, .ABSOLUTE, 3, 4, 0⟩,
   ⟨.DEC, .DEC, .ABSOLUTE, 3, 6, 0⟩,
   ⟨.DCP, .unimplemented, .ABSOLUTE, 0, 6, 0⟩]

/-- Instruction-table rows for opcodes `0xD0`–`0xDF`. -/
def instructions_D0 : List Instruction :=
  [⟨.BNE, .BNE, .RELATIVE, 2, 2, 1⟩,
   ⟨.CMP, .CMP, .INDIRECT_INDEXED, 2, 5, 1⟩,
   ⟨.KIL, .unimplemented, .IMPLIED, 0, 2, 0⟩,
   ⟨.DCP, .unimplemented, .INDIRECT_INDEXED, 0, 8, 0⟩,
   ⟨.NOP, .NOP, .ZEROPAGE_X, 2, 4, 0⟩,
   ⟨.CMP, .CMP, .ZEROPAGE_X, 2, 4, 0⟩,
   ⟨.DEC, .DEC, .ZEROPAGE_X, 2, 6, 0⟩,
   ⟨.DCP, .unimplemented, .ZEROPAGE_X, 0, 6, 0⟩,
   ⟨.CLD, .CLD, .IMPLIED, 1, 2, 0⟩,
   ⟨.CMP, .CMP, .ABSOLUTE_Y, 3, 4, 1⟩,
   ⟨.NOP, .NOP, .IMPLIED, 1, 2, 0⟩,
   ⟨.DCP, .unimplemented, .ABSOLUTE_Y, 0, 7, 0⟩,
   ⟨.NOP, .NOP, .ABSOLUTE_X, 3, 4, 1⟩,
   ⟨.CMP, .CMP, .ABSOLUTE_X, 3, 4, 1⟩,
   ⟨.DEC, .DEC, .ABSOLUTE_X, 3, 7, 0⟩,
   ⟨.DCP, .unimplemented, .ABSOLUTE_X, 0, 7, 0⟩]

/-- Instruction-table rows for opcodes `0xE0`–`0xEF`. -/
def instructions_E0 : List Instruction :=
  [⟨.CPX, .CPX, .IMMEDIATE, 2, 2, 0⟩,
   ⟨.SBC, .SBC, .INDEXED_INDIRECT, 2, 6, 0⟩,
   ⟨.NOP, .NOP, .IMMEDIATE, 0, 2, 0⟩,
   ⟨.ISC, .unimplemented, .INDEXED_INDIRECT, 0, 8, 0⟩,
   ⟨.CPX, .CPX, .ZEROPAGE, 2, 3, 0⟩,
   ⟨.SBC, .SBC, .ZEROPAGE, 2, 3, 0⟩,
   ⟨.INC, .INC, .ZEROPAGE, 2, 5, 0⟩,
   ⟨.ISC, .unimplemented, .ZEROPAGE, 0, 5, 0⟩,
   ⟨.INX, .INX, .IMPLIED, 1, 2, 0⟩,
   ⟨.SBC, .SBC, .IMMEDIATE, 2, 2, 0⟩,
   ⟨.NOP, .NOP, .IMPLIED, 1, 2, 0⟩,
   ⟨.SBC, .SBC, .IMMEDIATE, 0, 2, 0⟩,
   ⟨.CPX, .CPX, .ABSOLUTE, 3, 4, 0⟩,
   ⟨.SBC, .SBC, .ABSOLUTE, 3, 4, 0⟩,
   ⟨.INC, .INC, .ABSOLUTE, 3, 6, 0⟩,
   ⟨.ISC, .unimplemented, .ABSOLUTE, 0, 6, 0⟩]

/-- Instruction-table rows for opcodes `0xF0`–`0xFF`. -/
def instructions_F0 : List Instruction :=
  [⟨.BEQ, .BEQ, .RELATIVE, 2, 2, 1⟩,
   ⟨.SBC, .SBC, .INDIRECT_INDEXED, 2, 5, 1⟩,
   ⟨.KIL, .unimplemented, .IMPLIED, 0, 2, 0⟩,
   ⟨.ISC, .unimplemented, .INDIRECT_INDEXED, 0, 8, 0⟩,
   ⟨.NOP, .NOP, .ZEROPAGE_X, 2, 4, 0⟩,
   ⟨.SBC, .SBC, .ZEROPAGE_X, 2, 4, 0⟩,
   ⟨.INC, .INC, .ZEROPAGE_X, 2, 6, 0⟩,
   ⟨.ISC, .unimplemented, .ZEROPAGE_X, 0, 6, 0⟩,
   ⟨.SED, .SED, .IMPLIED, 1, 2, 0⟩,
   ⟨.SBC, .SBC, .ABSOLUTE_Y, 3, 4, 1⟩,
   ⟨.NOP, .NOP, .IMPLIED, 1, 2, 0⟩,
   ⟨.ISC, .unimplemented, .ABSOLUTE_Y, 0, 7, 0⟩,
   ⟨.NOP, .NOP, .ABSOLUTE_X, 3, 4, 1⟩,
   ⟨.SBC, .SBC, .ABSOLUTE_X, 3, 4, 1⟩,
   ⟨.INC, .INC, .ABSOLUTE_X, 3, 7, 0⟩,
   ⟨.ISC, .unimplemented, .ABSOLUTE_X, 0, 7, 0⟩]

/-- The 256-entry instruction table of `CPU.__init__`, by opcode:
`⟨mnemonic, handler, mode, length, ticks, page_ticks⟩`, assembled from
the sixteen 16-row blocks above. -/
def instructions : List Instruction :=
  instructions_00 ++ instructions_10 ++ instructions_20 ++ instructions_30 ++
  instructions_40 ++ instructions_50 ++ instructions_60 ++ instructions_70 ++
  instructions_80 ++ instructions_90 ++ instructions_A0 ++ instructions_B0 ++
  instructions_C0 ++ instructions_D0 ++ instructions_E0 ++ instructions_F0

/-- Table lookup `self.instructions[opcode]`.  `CPU.step` only consults it
for `opcode < 256` (Python raises `IndexError` past the end, modelled by
the `none` guard in `CPU.step`); the padding default is never returned. -/
def instructionAt (opcode : Nat) : Instruction :=
  instructions.getD opcode ⟨.KIL, .unimplemented, .IMPLIED, 0, 2, 0⟩

/-- The conditional-branch mnemonics checked by `CPU.step` for the
taken-branch extra tick. -/
def branch_instruction_types : List InstructionType :=
  [.BCC, .BCS, .BEQ, .BMI, .BNE, .BPL, .BVC, .BVS]

/-- `CPU.step`: one instruction (or one stall tick).  Fetch the opcode at
PC, clear the transient signals, assemble the little-endian operand,
dispatch the handler, then account PC advance and cycles: `+1` tick for a
taken conditional branch, the base `ticks`, and `page_ticks` only if the
handler set `page_crossed`.  An opcode value past the end of the table
(impossible for byte-valued memory) is the `IndexError` `none`. -/
def CPU.step (c : CPU) : Option CPU :=
  if c.stall > 0 then
    some { c with stall := c.stall - 1, cpu_ticks := c.cpu_ticks + 1 }
  else
    (c.read_memory c.PC MemMode.ABSOLUTE).bind fun (opcode, c) =>
    let c := { c with page_crossed := false, jumped := false }
    if opcode < 256 then
      let instruction := instructionAt opcode
      ((List.range' 1 (instruction.length - 1)).foldlM
          (fun (dc : Nat × CPU) i =>
            (dc.2.read_memory (dc.2.PC + i) MemMode.ABSOLUTE).map fun bc =>
              (dc.1 ||| (bc.1 <<< ((i - 1) * 8)), bc.2)) ((0 : Nat), c)).bind
        fun (data, c) =>
      (c.execute instruction.method instruction data).map fun c =>
      let c :=
        if ¬ c.jumped then { c with PC := c.PC + instruction.length }
        else if instruction.type ∈ branch_instruction_types then
          { c with cpu_ticks := c.cpu_ticks + 1 }
        else c
      let c := { c with cpu_ticks := c.cpu_ticks + instruction.ticks }
      if c.page_crossed then
        { c with cpu_ticks := c.cpu_ticks + instruction.page_ticks }
      else c
    else none

/-! ## Concrete fixtures for the claim theorems -/

/-- An all-zero cartridge (one 16 KiB PRG bank, horizontal mirroring). -/
def rom0 : ROM := ⟨fun _ => 0, fun _ => 0, fun _ => 0, 1, false⟩

/-- The PPU exactly as `PPU.__init__` leaves it (all banks zeroed,
`address_increment = 1`, all latches and flags clear). -/
def ppu0 : PPU :=
  ⟨fun _ => 0, fun _ => 0, fun _ => 0, 0, false, 0, 0, 0, 1, 0, 0,
   false, false, false, false, false, 0, 0, false, 0, 0, 0, fun _ _ => 0⟩

/-- The CPU as `CPU.__init__` leaves it over an all-zero ROM: zero
registers, `SP = 0xFD`, `PC = 0` (zero reset vector), `I` set. -/
def cpu0 : CPU :=
  ⟨ppu0, rom0, fun _ => 0, 0, 0, 0, 0xFD, 0, false, false, true, false,
   false, false, false, false, false, 0, 0, {}⟩

/-! ## C1: branch page-cross penalty -/

/-- `BEQ $20` at PC `0x00F0` with `Z = 1`: opcode `0xF0` at `ram[0xF0]`,
offset `0x20` at `ram[0xF1]`.  Branch target `0x0112` is on a different
page than `0x00F2`. -/
def c1_page_cross_cpu : CPU :=
  { cpu0 with
      PC := 0xF0, Z := true,
      ram := updFn (updFn (fun _ => 0) 0xF0 0xF0) 0xF1 0x20 }

/-- `BEQ $05` at PC `0x00F0` with `Z = 1`: target `0x00F7`, same page. -/
def c1_no_cross_cpu : CPU :=
  { cpu0 with
      PC := 0xF0, Z := true,
      ram := updFn (updFn (fun _ => 0) 0xF0 0xF0) 0xF1 0x05 }

/-- C1: a taken `BEQ` at `0x00F0` with offset `0x20` branches across a
page boundary to `0x0112` yet consumes only 3 CPU ticks (base 2 + 1
taken), not the 4 the claim states: `CPU.address_for_mode` never sets
`page_crossed` in RELATIVE mode, so the table's `page_ticks = 1` for
branches is never charged.  The no-cross case (offset `0x05`, target
`0x00F7`) takes 3 ticks as claimed. -/
theorem c1_branch_page_cross_penalty_not_charged :
    (CPU.step c1_page_cross_cpu).map (fun c => (c.cpu_ticks, c.PC)) =
      some (3, 0x112) ∧
    (CPU.step c1_no_cross_cpu).map (fun c => (c.cpu_ticks, c.PC)) =
      some (3, 0xF7) := by
  constructor <;> rfl

/-! ## C3: indirect JMP page bug -/

/-- `JMP ($10FF)` fetched from RAM at `0x0400`, with the CPU-visible
bytes of the claim in place: bus address `0x10FF` mirrors to
`ram[0x2FF] = 0x80` and `0x1000` mirrors to `ram[0x000] = 0x40`. -/
def c3_crash_cpu : CPU :=
  { cpu0 with
      PC := 0x400,
      ram := updFn (updFn (updFn (updFn (updFn (fun _ => 0)
        0x400 0x6C) 0x401 0xFF) 0x402 0x10) 0x2FF 0x80) 0x0 0x40 }

/-- `JMP ($06FF)` with `ram[0x6FF] = 0x80` and `ram[0x600] = 0x40`: a
pointer that stays inside the raw 2 KiB array, to exhibit the page-wrap
bug itself. -/
def c3_inpage_cpu : CPU :=
  { cpu0 with
      PC := 0x400,
      ram := updFn (updFn (updFn (updFn (updFn (fun _ => 0)
        0x400 0x6C) 0x401 0xFF) 0x402 0x06) 0x6FF 0x80) 0x600 0x40 }

/-- C3: executing `JMP ($10FF)` crashes instead of setting PC to
`0x4080`: the INDIRECT case of `CPU.address_for_mode` indexes the 2 KiB
`ram` array raw at `0x10FF` (no memory-map mirroring), an `IndexError`.
The page-wrap bug logic itself is present: with an in-range pointer
`$06FF` the high byte is fetched from `0x0600` and PC becomes `0x4080`. -/
theorem c3_jmp_indirect_reads_raw_ram_and_crashes :
    CPU.step c3_crash_cpu = none ∧
    (CPU.step c3_inpage_cpu).map (fun c => c.PC) = some 0x4080 := by
  constructor <;> rfl

/-! ## C5: status handling at the pre-render scanline -/

/-- A PPU at `(scanline, cycle) = (261, 1)` with the vblank bit set. -/
def c5_ppu : PPU := { ppu0 with scanline := 261, cycle := 1, status := 0x80 }

/-- C5: at `(261, 1)` the code executes `status |= 0x1F`, so from status
`0x80` one step yields `0x9F`: bits 0–4 are set and bit 7 (vblank) is
still set, contradicting the claim that bits 7, 6, 5 are cleared (and
the source's own comment `Vblank off, clear sprite zero, clear sprite
overflow`). -/
theorem c5_prerender_status_or_keeps_vblank :
    (PPU.step rom0 c5_ppu).status = 0x9F ∧
    ((PPU.step rom0 c5_ppu).status.testBit 7 = true) := by
  constructor <;> rfl

/-! ## C4: the PPUADDR/PPUSCROLL write latches -/

/-- C4 counterexample: read PPUSTATUS, write PPUADDR once, then write
PPUSCROLL with 7.  Under the claim (one shared latch) the PPUSCROLL
write would be the second of its pair and set scroll Y := 7; in the code
the two registers toggle separate latches, so it sets scroll X := 7 and
scroll Y stays 0. -/
theorem c4_counterexample_scroll_write_is_first :
    (((PPU.read_register rom0 ppu0 0x2002).bind fun r =>
        (PPU.write_register rom0 r.2 0x2006 0x21).bind fun p2 =>
          PPU.write_register rom0 p2 0x2005 7).map
        (fun p => (p.scroll_x, p.scroll_y))) = some (7, 0) ∧
    ¬ (((PPU.read_register rom0 ppu0 0x2002).bind fun r =>
        (PPU.write_register rom0 r.2 0x2006 0x21).bind fun p2 =>
          PPU.write_register rom0 p2 0x2005 7).map
        (fun p => p.scroll_y)) = some 7 := by
  constructor
  · rfl
  · decide

/-- C4 (amended): PPUADDR and PPUSCROLL toggle two separate 1-bit
latches (`addr_write_latch` and `scroll_latch`), both cleared by reading
PPUSTATUS; after a PPUSTATUS read followed by a single PPUADDR write,
the next PPUSCROLL write is still treated as the first write of the
scroll pair: the whole sequence succeeds, sets scroll X to the written
value, leaves scroll Y unchanged, and leaves both latches toggled to
true. -/
theorem c4_separate_write_latches :
    ∀ (rom : ROM) (p : PPU) (v1 v2 : Nat),
      (((PPU.read_register rom p 0x2002).bind fun r =>
          (PPU.write_register rom r.2 0x2006 v1).bind fun p2 =>
            PPU.write_register rom p2 0x2005 v2).map
          (fun p3 => (p3.scroll_x, p3.scroll_y, p3.scroll_latch,
                      p3.addr_write_latch))) =
        some (v2, p.scroll_y, true, true) := by
  intro rom p v1 v2
  rfl

/-! ## C8: the PPU register read/write partition -/

/-- C8 (amended): provided the OAM pointer is inside the 256-byte OAM, a
PPU register read succeeds exactly for `{0x2002, 0x2004, 0x2007}` and a
register write succeeds exactly for the other seven registers
`{0x2000, 0x2001, 0x2003, 0x2004, 0x2005, 0x2006, 0x2007}`; every other
access (in particular reads of the five write-only registers and writes
of `0x2002`) raises the unrecognized-register `LookupError`. -/
theorem c8_register_access_partition :
    ∀ (rom : ROM) (p : PPU) (v a : Nat),
      p.spr_address < 256 →
      ((PPU.read_register rom p a).isSome = true ↔
        a ∈ ([0x2002, 0x2004, 0x2007] : List Nat)) ∧
      ((PPU.write_register rom p a v).isSome = true ↔
        a ∈ ([0x2000, 0x2001, 0x2003, 0x2004, 0x2005, 0x2006,
              0x2007] : List Nat)) := by
  intro rom p v a h
  constructor
  · unfold PPU.read_register
    split_ifs with h1 h2 h3 <;> simp_all
  · unfold PPU.write_register
    split_ifs with h1 h2 h3 h4 h5 h6 h7 <;> simp_all

/-- The PPU of `c8_counterexample_oam_read_raises`: the OAM pointer has
run off the end of OAM (reachable via C9). -/
def c8_overrun_ppu : PPU := { ppu0 with spr_address := 256 }

/-- C8 counterexample: with the OAM pointer at 256, a read of OAMDATA
(`0x2004`) — a register inside the defined read set — nevertheless
fails, so the claim's "reads inside the set do not raise" is false
without a proviso on the pointer. -/
theorem c8_counterexample_oam_read_raises :
    PPU.read_register rom0 c8_overrun_ppu 0x2004 = none := by rfl

/-- C8 witness: the partition instantiated at the reset PPU and
register `0x2004`. -/
theorem c8_register_access_partition_witness :
    ((PPU.read_register rom0 ppu0 0x2004).isSome = true ↔
      0x2004 ∈ ([0x2002, 0x2004, 0x2007] : List Nat)) ∧
    ((PPU.write_register rom0 ppu0 0x2004 0).isSome = true ↔
      0x2004 ∈ ([0x2000, 0x2001, 0x2003, 0x2004, 0x2005, 0x2006,
                 0x2007] : List Nat)) :=
  c8_register_access_partition rom0 ppu0 0 0x2004 (by decide)

/-! ## C9: the OAM write pointer is not wrapped -/

/-- C9: an OAMDATA write with the pointer at 255 stores the byte and
leaves the pointer at 256 (no reduction mod 256), after which both an
OAMDATA read and an OAMDATA write index outside the 256-byte OAM and
fail (`IndexError`). -/
theorem c9_oamdata_write_overruns_pointer :
    ∀ (rom : ROM) (p : PPU) (v w : Nat),
      p.spr_address = 255 →
      ∃ p', PPU.write_register rom p 0x2004 v = some p' ∧
        p'.spr_address = 256 ∧
        PPU.read_register rom p' 0x2004 = none ∧
        (∀ rw : ROM, PPU.write_register rw p' 0x2004 w = none) := by
  intro rom p v w h
  unfold PPU.write_register PPU.read_register
  simp [h]

/-- The PPU of the C9 witness: pointer at the last OAM byte. -/
def c9_ppu : PPU := { ppu0 with spr_address := 255 }

/-- C9 witness: the overrun at the concrete reset-state PPU with the
pointer at 255. -/
theorem c9_oamdata_write_overruns_pointer_witness :
    ∃ p', PPU.write_register rom0 c9_ppu 0x2004 9 = some p' ∧
      p'.spr_address = 256 ∧
      PPU.read_register rom0 p' 0x2004 = none ∧
      (∀ rw : ROM, PPU.write_register rw p' 0x2004 5 = none) :=
  c9_oamdata_write_overruns_pointer rom0 c9_ppu 9 5 (by rfl)

/-! ## C6: CPU bus dispatch to the PPU registers -/

/-- C6 (amended): every CPU bus **read** in `0x2000 ≤ a < 0x4000` is
delivered to PPU register `(a % 8) | 0x2000` (and `a % 8 = a &&& 7`);
every bus **write** in `0x2000 ≤ a < 0x3FFF` likewise — but the write
branch guard is `a < 0x3FFF`, so a write at exactly `0x3FFF` falls into
the unimplemented-I/O branch and is silently dropped. -/
theorem c6_ppu_register_mirroring :
    (∀ (c : CPU) (a : Nat), 0x2000 ≤ a → a < 0x4000 →
       c.read_memory a MemMode.ABSOLUTE =
         (PPU.read_register c.rom c.ppu ((a % 8) ||| 0x2000)).map
           (fun vp => (vp.1, { c with ppu := vp.2 }))) ∧
    (∀ (c : CPU) (a v : Nat), 0x2000 ≤ a → a < 0x3FFF →
       c.write_memory a MemMode.ABSOLUTE v =
         (PPU.write_register c.rom c.ppu ((a % 8) ||| 0x2000) v).map
           (fun pp => { c with ppu := pp })) ∧
    (∀ (c : CPU) (v : Nat),
       c.write_memory 0x3FFF MemMode.ABSOLUTE v = some c) := by
  refine ⟨?_, ?_, ?_⟩
  · intro c a h1 h2
    have hn : ¬ a < 0x2000 := by omega
    simp [CPU.read_memory, CPU.address_for_mode, hn, h2]
  · intro c a v h1 h2
    have hn : ¬ a < 0x2000 := by omega
    simp [CPU.write_memory, CPU.address_for_mode, hn, h2]
  · intro c v
    rfl

/-- C6 counterexample: a write at the boundary address `0x3FFF` is *not*
delivered to register `0x2007`: it leaves the PPU address register
untouched (`some 0` below), while delivery to `(0x3FFF % 8) | 0x2000 =
0x2007` would post-increment it to 1. -/
theorem c6_counterexample_write_3FFF_dropped :
    (cpu0.write_memory 0x3FFF MemMode.ABSOLUTE 0x55).map
      (fun c => c.ppu.addr) = some 0 ∧
    (PPU.write_register cpu0.rom cpu0.ppu ((0x3FFF % 8) ||| 0x2000)
        0x55).map (fun pp => pp.addr) = some 1 ∧
    (cpu0.write_memory 0x3FFF MemMode.ABSOLUTE 0x55).map
        (fun c => c.ppu.addr) ≠
      (PPU.write_register cpu0.rom cpu0.ppu ((0x3FFF % 8) ||| 0x2000)
          0x55).map (fun pp => pp.addr) := by
  refine ⟨rfl, rfl, by decide⟩

/-- C6 witness: the amended theorem applied at the reset CPU, with a
read at `0x2002`, a write at `0x2006`, and the dropped write at
`0x3FFF`. -/
theorem c6_ppu_register_mirroring_witness :
    (cpu0.read_memory 0x2002 MemMode.ABSOLUTE =
      (PPU.read_register cpu0.rom cpu0.ppu ((0x2002 % 8) ||| 0x2000)).map
        (fun vp => (vp.1, { cpu0 with ppu := vp.2 }))) ∧
    (cpu0.write_memory 0x2006 MemMode.ABSOLUTE 0x21 =
      (PPU.write_register cpu0.rom cpu0.ppu ((0x2006 % 8) ||| 0x2000)
          0x21).map (fun pp => { cpu0 with ppu := pp })) ∧
    (cpu0.write_memory 0x3FFF MemMode.ABSOLUTE 9 = some cpu0) :=
  ⟨c6_ppu_register_mirroring.1 cpu0 0x2002 (by decide) (by decide),
   c6_ppu_register_mirroring.2.1 cpu0 0x2006 0x21 (by decide) (by decide),
   c6_ppu_register_mirroring.2.2 cpu0 9⟩

/-! ## C7: PHP/PLP status round trip -/

set_option maxRecDepth 40000 in
/-- For a stack pointer inside its byte range, `0x100 | SP` is plain
addition (the two summands have no common bits). -/
theorem lor_stack_page : ∀ s : Nat, s < 256 → 0x100 ||| s = 0x100 + s := by
  decide

/-- C7: from any CPU state with the stack pointer in range, executing
PHP and then PLP succeeds and restores C, Z, I, D, V, N to their values
before the PHP, with B false afterwards (the status byte is pushed with
B set, and `set_status` forces B back to false). -/
theorem c7_php_plp_restores_flags :
    ∀ (c : CPU) (i1 i2 : Instruction) (d1 d2 : Nat),
      c.SP < 256 →
      ∃ c', (c.PHP i1 d1).bind (fun cc => cc.PLP i2 d2) = some c' ∧
        c'.C = c.C ∧ c'.Z = c.Z ∧ c'.I = c.I ∧ c'.D = c.D ∧
        c'.V = c.V ∧ c'.N = c.N ∧ c'.B = false ∧ c'.SP = c.SP := by
  intro c i1 i2 d1 d2 hSP
  obtain ⟨ppu, rom, ram, A, X, Y, SP, PC, C, Z, I, D, B, V, N, jm, pc, tk, st, jp⟩ := c
  replace hSP : SP < 256 := hSP
  have hlor : (0x100 : Nat) ||| SP = 0x100 + SP := lor_stack_page SP hSP
  have hlt : 0x100 + SP < 2048 := by omega
  have hsp : ((SP + 255) % 256 + 1) % 256 = SP := by omega
  simp only [CPU.PHP, CPU.stack_push, CPU.ram_set, CPU.status, hlor]
  rw [if_pos hlt]
  simp only [Option.map_some', Option.some_bind, CPU.PLP, CPU.stack_pop,
    CPU.ram_get, CPU.set_status, hsp, hlor]
  rw [if_pos hlt]
  simp only [updFn, Option.map_some', if_pos rfl, if_true]
  refine ⟨_, rfl, ?_, ?_, ?_, ?_, ?_, ?_, ?_, ?_⟩ <;>
    first
      | rfl
      | (dsimp only; revert C Z I D V N; decide)

/-- The CPU of the C7 witness: a mixed set of flag values at the reset
stack pointer. -/
def c7_cpu : CPU :=
  { cpu0 with C := true, D := true, V := true, N := false, Z := false,
              B := true }

/-- A concrete instruction argument for the C7 witness handlers (PHP and
PLP ignore their instruction and operand arguments). -/
def inst_implied_nop : Instruction := ⟨.NOP, .NOP, .IMPLIED, 1, 2, 0⟩

/-- C7 witness: the round trip at a concrete state with C, D, V set and
Z, N clear. -/
theorem c7_php_plp_restores_flags_witness :
    ∃ c', (c7_cpu.PHP inst_implied_nop 0).bind
        (fun cc => cc.PLP inst_implied_nop 0) = some c' ∧
      c'.C = c7_cpu.C ∧ c'.Z = c7_cpu.Z ∧ c'.I = c7_cpu.I ∧
      c'.D = c7_cpu.D ∧ c'.V = c7_cpu.V ∧ c'.N = c7_cpu.N ∧
      c'.B = false ∧ c'.SP = c7_cpu.SP :=
  c7_php_plp_restores_flags c7_cpu inst_implied_nop inst_implied_nop 0 0
    (by decide)


/-! ## C2: unofficial opcodes have no side effect -/

/-- A CPU bus read in ABSOLUTE mode can touch only the PPU and the
joypad read counter: registers, flags, RAM, the cycle counter and the
transient signals all pass through unchanged. -/
theorem read_memory_absolute_preserves
    (c : CPU) (loc v : Nat) (c' : CPU)
    (h : c.read_memory loc MemMode.ABSOLUTE = some (v, c')) :
    c'.A = c.A ∧ c'.X = c.X ∧ c'.Y = c.Y ∧ c'.SP = c.SP ∧ c'.PC = c.PC ∧
    c'.C = c.C ∧ c'.Z = c.Z ∧ c'.I = c.I ∧ c'.D = c.D ∧ c'.B = c.B ∧
    c'.V = c.V ∧ c'.N = c.N ∧ c'.ram = c.ram ∧
    c'.cpu_ticks = c.cpu_ticks ∧ c'.stall = c.stall ∧
    c'.jumped = c.jumped ∧ c'.page_crossed = c.page_crossed := by
  unfold CPU.read_memory CPU.address_for_mode at h
  rw [if_neg (by decide : ¬ (MemMode.ABSOLUTE = MemMode.IMMEDIATE))] at h
  simp only [Option.some_bind] at h
  split at h
  · injection h with h'
    injection h' with h1 h2
    subst h2
    simp
  · split at h
    · rcases Option.map_eq_some'.mp h with ⟨a, ha, hf⟩
      injection hf with h1 h2
      subst h2
      simp
    · split at h
      · split at h <;>
          (injection h with h'
           injection h' with h1 h2
           subst h2
           simp)
      · split at h <;>
          (injection h with h'
           injection h' with h1 h2
           subst h2
           simp)

set_option maxRecDepth 40000 in
/-- Every table entry that binds the `unimplemented` handler has operand
length 0 (checked over all 256 opcodes). -/
theorem instructionAt_unimplemented_length :
    ∀ op : Nat, op < 256 → (instructionAt op).method = Handler.unimplemented →
      (instructionAt op).length = 0 := by decide

/-- C2: for every opcode whose table entry binds the `unimplemented`
handler, one CPU step at that opcode (with no pending stall) leaves A,
X, Y, SP, PC, all seven flags and the RAM unchanged, and advances the
cycle counter by exactly the entry's base `ticks` (no page penalty, no
branch penalty). -/
theorem c2_unimplemented_opcode_only_ticks :
    ∀ (c : CPU) (op : Nat) (c₁ : CPU),
      c.stall = 0 →
      c.read_memory c.PC MemMode.ABSOLUTE = some (op, c₁) →
      op < 256 →
      (instructionAt op).method = Handler.unimplemented →
      ∃ c', c.step = some c' ∧
        c'.A = c.A ∧ c'.X = c.X ∧ c'.Y = c.Y ∧ c'.SP = c.SP ∧ c'.PC = c.PC ∧
        c'.C = c.C ∧ c'.Z = c.Z ∧ c'.I = c.I ∧ c'.D = c.D ∧ c'.B = c.B ∧
        c'.V = c.V ∧ c'.N = c.N ∧ c'.ram = c.ram ∧
        c'.cpu_ticks = c.cpu_ticks + (instructionAt op).ticks := by
  intro c op c₁ hstall hfetch hop hunimp
  have hpres := read_memory_absolute_preserves c c.PC op c₁ hfetch
  obtain ⟨hA, hX, hY, hSP, hPC, hC, hZ, hI, hD, hB, hV, hN, hram, htk, hst, hjm, hpc⟩ := hpres
  have hlen := instructionAt_unimplemented_length op hop hunimp
  unfold CPU.step
  rw [if_neg (by omega : ¬ c.stall > 0), hfetch]
  simp only [Option.some_bind]
  rw [if_pos hop]
  simp only [hlen, hunimp, Nat.zero_sub, List.range'_zero, List.foldlM_nil,
    Option.pure_def, Option.some_bind, Option.map_some']
  refine ⟨_, rfl, ?_, ?_, ?_, ?_, ?_, ?_, ?_, ?_, ?_, ?_, ?_, ?_, ?_, ?_⟩ <;>
    simp [hA, hX, hY, hSP, hPC, hC, hZ, hI, hD, hB, hV, hN, hram, htk]

/-! ## C10: behind-background sprites are never drawn -/

/-- A fold whose step never changes the framebuffer leaves the
framebuffer unchanged. -/
theorem foldl_preserves_display_buffer {α : Type} (f : PPU → α → PPU)
    (h : ∀ q x, (f q x).display_buffer = q.display_buffer) :
    ∀ (l : List α) (p : PPU), (l.foldl f p).display_buffer = p.display_buffer := by
  intro l
  induction l with
  | nil => intro p; rfl
  | cons a t ih => intro p; rw [List.foldl_cons, ih, h]

/-- A single sprite-pixel step for a behind-background sprite
(`background_sprite = true`) with `background_transparent = false` never
writes the framebuffer: either the pixel is transparent, or the
behind-background skip fires right after the sprite-zero check (which
touches only the status byte). -/
theorem sprite_pixel_behind_no_draw (rom : ROM) (i xp yp x y : Nat) (q : PPU) :
    (PPU.sprite_pixel rom false i true xp yp x y q).display_buffer =
      q.display_buffer := by
  unfold PPU.sprite_pixel
  dsimp only
  split_ifs <;> first | rfl | simp_all

/-- C10: the whole-frame render of `PPU.step` at `(240, 256)` is
`PPU.render_frame`, whose sprite pass is invoked with
`background_transparent = false`; and under that argument, the OAM-entry
draw for any sprite whose attribute bit 5 (behind-background) is set
leaves the framebuffer exactly as it was — no pixel of such a sprite is
ever written. -/
theorem c10_behind_background_sprites_not_drawn :
    (∀ (rom : ROM) (p : PPU), p.scanline = 240 → p.cycle = 256 →
       PPU.step rom p = PPU.post_render (p.render_frame rom)) ∧
    (∀ (rom : ROM) (p : PPU) (i : Nat),
       (p.spr (i + 2) >>> 5) &&& 1 ≠ 0 →
       (PPU.draw_sprite_entry rom false p i).display_buffer =
         p.display_buffer) := by
  constructor
  · intro rom p h1 h2
    unfold PPU.step
    rw [if_pos ⟨h1, h2⟩]
  · intro rom p i h
    unfold PPU.draw_sprite_entry
    dsimp only
    split
    · rfl
    · have hbs : (p.spr (i + 2) >>> 5 &&& 1 != 0) = true := by
        simpa using h
      simp only [hbs]
      apply foldl_preserves_display_buffer
      intro q x
      apply foldl_preserves_display_buffer
      intro q' y
      exact sprite_pixel_behind_no_draw rom i (p.spr (i + 3)) (p.spr i) x y q'

/-- The PPU of the C10 witness, part 1: at the render point. -/
def c10_render_ppu : PPU := { ppu0 with scanline := 240, cycle := 256 }

/-- The PPU of the C10 witness, part 2: every OAM entry has attribute
byte `0x20` (behind-background bit set) and visible position/tile
`0x10`. -/
def c10_sprite_ppu : PPU :=
  { ppu0 with spr := fun j => if j % 4 = 2 then 0x20 else 0x10 }

/-- C10 witness: the render-point equation at a concrete PPU, and the
unchanged framebuffer for the concrete behind-background sprite 0. -/
theorem c10_behind_background_sprites_not_drawn_witness :
    PPU.step rom0 c10_render_ppu =
      PPU.post_render (c10_render_ppu.render_frame rom0) ∧
    (PPU.draw_sprite_entry rom0 false c10_sprite_ppu 0).display_buffer =
      c10_sprite_ppu.display_buffer :=
  ⟨c10_behind_background_sprites_not_drawn.1 rom0 c10_render_ppu rfl rfl,
   c10_behind_background_sprites_not_drawn.2 rom0 c10_sprite_ppu 0 (by decide)⟩

/-- The CPU of the C2 witness: unofficial opcode `0x02` (`KIL`, 2 base
ticks) at PC 0, with nonzero register and counter values to observe. -/
def c2_cpu : CPU :=
  { cpu0 with ram := updFn (fun _ => 0) 0 0x02, A := 7, cpu_ticks := 5 }

/-- C2 witness: stepping the concrete `KIL` opcode `0x02`. -/
theorem c2_unimplemented_opcode_only_ticks_witness :
    ∃ c', c2_cpu.step = some c' ∧
      c'.A = c2_cpu.A ∧ c'.X = c2_cpu.X ∧ c'.Y = c2_cpu.Y ∧
      c'.SP = c2_cpu.SP ∧ c'.PC = c2_cpu.PC ∧
      c'.C = c2_cpu.C ∧ c'.Z = c2_cpu.Z ∧ c'.I = c2_cpu.I ∧
      c'.D = c2_cpu.D ∧ c'.B = c2_cpu.B ∧ c'.V = c2_cpu.V ∧
      c'.N = c2_cpu.N ∧ c'.ram = c2_cpu.ram ∧
      c'.cpu_ticks = c2_cpu.cpu_ticks + (instructionAt 0x02).ticks :=
  c2_unimplemented_opcode_only_ticks c2_cpu 0x02 c2_cpu rfl rfl
    (by decide) (by decide)
